import Mathlib

/-! # Honeywell TruStability SPI driver: frame decoding and count conversion

Shallow embedding of `src/src/HoneywellTruStabilitySPI.h` (class
`TruStabilityPressureSensor`, the refactored driver) and of
`src/HoneywellTruStabilitySPI.h` (class `TruStability_PressureSensor`, the
older driver).

Modelling conventions
* `uint8_t` values are `Fin 256` when they are inputs (the bytes of a frame) and
  `Nat` reduced with `u8` when they are stored results; `uint16_t` arithmetic is
  `Nat` arithmetic reduced with `u16` after a left shift.
* `int` fields are `Int`.
* `float` is read in two ways.  `countsToPressure` and `countsToTemperatures` are the source
  expressions in exact rational arithmetic (`ℚ`, no rounding).  `countsToPressureF32` is the
  pressure expression as executed, every operation rounded to binary32.
* A member function is a function from the object state to a result and the
  next object state.  The four bytes that `SPI.transfer` stores into `_buf` are
  the `rx` argument of `readSensor`.
-/

/-- One `uint8_t` received from the bus. -/
abbrev Byte := Fin 256

/-- Contents of `uint8_t _buf[4]`. -/
structure Frame where
  b0 : Byte
  b1 : Byte
  b2 : Byte
  b3 : Byte
deriving DecidableEq, Repr

/-- Arduino `SPISettings(clock, bitOrder, dataMode)`; carried by the driver, never inspected. -/
structure SPISettings where
  clock : Nat
  bitOrder : Nat
  dataMode : Nat
deriving DecidableEq, Repr

/-- Store into a `uint8_t`. -/
def u8 (n : Nat) : Nat := n % 256

/-- Result of `uint16_t` arithmetic in its narrowest evaluation (16-bit `unsigned int`). -/
def u16 (n : Nat) : Nat := n % 65536

/-- Decimal value written in `const float MIN_COUNT = 1638.4;` (exact-rational reading; the
binary32 value the constant holds is `MIN_COUNT_F32`). -/
def MIN_COUNT : ℚ := 1638.4

/-- Decimal value written in `const float MAX_COUNT = 14745.6;` (exact-rational reading; the
binary32 value the constant holds is `MAX_COUNT_F32`). -/
def MAX_COUNT : ℚ := 14745.6

/-- Data members of `class TruStabilityPressureSensor` (refactored driver). -/
structure TruStabilityPressureSensor where
  _SS_PIN : Byte
  _MIN_PRESSURE : ℚ
  _MAX_PRESSURE : ℚ
  _spi_settings : SPISettings
  _buf : Frame
  _status : Nat
  _pressure_count : Int
  _temperature_count : Int
deriving DecidableEq, Repr

/-- Constructor `TruStabilityPressureSensor(pin, min_pressure, max_pressure, spi_settings)`
(named `new` here: a declaration cannot carry the name of its own namespace).
`_status`, `_pressure_count` and `_temperature_count` take their default member
initialisers (`= 0`); `_buf` has no initialiser, its indeterminate contents are `buf`. -/
def TruStabilityPressureSensor.new (pin : Byte) (min_pressure : ℚ)
    (max_pressure : ℚ) (spi_settings : SPISettings) (buf : Frame) :
    TruStabilityPressureSensor :=
  { _SS_PIN := pin
    _MIN_PRESSURE := min_pressure
    _MAX_PRESSURE := max_pressure
    _spi_settings := spi_settings
    _buf := buf
    _status := 0
    _pressure_count := 0
    _temperature_count := 0 }

/-- Member `uint8_t readSensor()`: `rx` is what `SPI.transfer(_buf, count)` leaves in `_buf`.
Returns `_status` and the updated object. -/
def TruStabilityPressureSensor.readSensor (s : TruStabilityPressureSensor) (rx : Frame) :
    Nat × TruStabilityPressureSensor :=
  let s1 := { s with _buf := rx }
  -- _status = _buf[0] >> 6 & 0x3;
  let s2 := { s1 with _status := u8 ((s1._buf.b0.val >>> 6) &&& 0x3) }
  let s3 :=
    if s2._status = 0 then
      { s2 with
        -- ( (uint16_t)(_buf[0]) << 8 & 0x3F00 ) | ( (uint16_t)(_buf[1]) & 0xFF )
        _pressure_count :=
          (((u16 (s2._buf.b0.val <<< 8) &&& 0x3F00) ||| (s2._buf.b1.val &&& 0xFF) : Nat) : Int)
        -- ( ((uint16_t)(_buf[2]) << 3) & 0x7F8 ) | ( ( (uint16_t)(_buf[3]) >> 5) & 0x7 )
        _temperature_count :=
          (((u16 (s2._buf.b2.val <<< 3) &&& 0x7F8) ||| ((s2._buf.b3.val >>> 5) &&& 0x7) : Nat) : Int) }
    else s2
  (s3._status, s3)

/-- Member `uint8_t status() const`. -/
def TruStabilityPressureSensor.status (s : TruStabilityPressureSensor) :
    Nat × TruStabilityPressureSensor :=
  (s._status, s)

/-- Member `int rawPressure() const`. -/
def TruStabilityPressureSensor.rawPressure (s : TruStabilityPressureSensor) :
    Int × TruStabilityPressureSensor :=
  (s._pressure_count, s)

/-- Member `int rawTemperature() const`. -/
def TruStabilityPressureSensor.rawTemperature (s : TruStabilityPressureSensor) :
    Int × TruStabilityPressureSensor :=
  (s._temperature_count, s)

/-- Static `float countsToPressure(const int counts, const float min_pressure, const float
max_pressure)` in exact rational arithmetic: the value of the source expression without
rounding.  The binary32 evaluation is `countsToPressureF32`. -/
def TruStabilityPressureSensor.countsToPressure (counts : Int) (min_pressure : ℚ)
    (max_pressure : ℚ) : ℚ :=
  ((((counts : ℚ) - MIN_COUNT) * (max_pressure - min_pressure)) / (MAX_COUNT - MIN_COUNT))
    + min_pressure

/-- Static `float countsToTemperatures(const int counts)` in exact rational arithmetic. -/
def TruStabilityPressureSensor.countsToTemperatures (counts : Int) : ℚ :=
  (((counts : ℚ) / 2047.0) * 200.0) - 50.0

/-- Member `float pressure() const`. -/
def TruStabilityPressureSensor.pressure (s : TruStabilityPressureSensor) :
    ℚ × TruStabilityPressureSensor :=
  (TruStabilityPressureSensor.countsToPressure s._pressure_count s._MIN_PRESSURE s._MAX_PRESSURE, s)

/-- Member `float temperature() const`. -/
def TruStabilityPressureSensor.temperature (s : TruStabilityPressureSensor) :
    ℚ × TruStabilityPressureSensor :=
  (TruStabilityPressureSensor.countsToTemperatures s._temperature_count, s)

/-- A polling history: `readSensor` called once per received frame, in order. -/
def TruStabilityPressureSensor.readSensorSeq (s : TruStabilityPressureSensor)
    (frames : List Frame) : TruStabilityPressureSensor :=
  frames.foldl (fun st rx => (st.readSensor rx).2) s

/-- Conversion of a floating value to `int`, as happens when a `float` is passed for the
parameter `const int counts`: the fractional part is discarded (truncation toward zero). -/
def floatToInt (x : ℚ) : Int :=
  if 0 ≤ x then ⌊x⌋ else ⌈x⌉

/-! ### The older driver, `src/HoneywellTruStabilitySPI.h` -/

/-- Data members of `class TruStability_PressureSensor` (older driver); it keeps no status. -/
structure TruStability_PressureSensor where
  _SS_PIN : Byte
  _MIN_PRESSURE : ℚ
  _MAX_PRESSURE : ℚ
  _spi_settings : SPISettings
  _buf : Frame
  _pressure_count : Int
  _temperature_count : Int
deriving DecidableEq, Repr

/-- Left shift `x << k` of a non-negative `int` that is `intBits` bits wide: the result is
defined only when `x * 2^k` is representable, that is below `2^(intBits - 1)`. -/
def shlInt (intBits : Nat) (x : Nat) (k : Nat) : Option Nat :=
  if x * 2 ^ k < 2 ^ (intBits - 1) then some (x <<< k) else none

/-- Member `uint8_t readSensor()` of the older driver, for an `int` of `intBits` bits; `rx`
holds the four bytes the `SPI.transfer(0x00)` calls return.  `none` is signed overflow. -/
def TruStability_PressureSensor.readSensor (intBits : Nat) (s : TruStability_PressureSensor)
    (rx : Frame) : Option (Nat × TruStability_PressureSensor) :=
  let s1 := { s with _buf := rx }
  -- byte status = _buf[0] >> 6;
  let status := u8 (s1._buf.b0.val >>> 6)
  if status = 0 then do
    -- ( ( (int)( _buf[0] & 0x3f ) ) << 8 ) | ( (int)( _buf[1] ) )
    let p ← shlInt intBits (s1._buf.b0.val &&& 0x3f) 8
    -- ( ( ( (int)_buf[2] ) << 8 ) | (int) _buf[3] ) >> 5
    let t ← shlInt intBits s1._buf.b2.val 8
    some (status,
      { s1 with
        _pressure_count := ((p ||| s1._buf.b1.val : Nat) : Int)
        _temperature_count := (((t ||| s1._buf.b3.val) >>> 5 : Nat) : Int) })
  else
    some (status, s1)

/-! ### binary32 arithmetic

The source computes `countsToPressure` in `float`.  The definitions below evaluate it as the
machine does: every operation is rounded once to binary32, nearest with ties to even,
subnormal numbers included.  A finite binary32 value is the rational it denotes; an overflow
(an infinity, and whatever is computed from one) is `none`.  The sign of zero is not kept:
the conversion never divides by a computed value, so it cannot influence a result. -/

/-- Rounding of a rational to the nearest integer, ties to the even one. -/
def halfEven (x : ℚ) : Int :=
  if x - ⌊x⌋ < 1 / 2 then ⌊x⌋
  else if 1 / 2 < x - ⌊x⌋ then ⌊x⌋ + 1
  else if ⌊x⌋ % 2 = 0 then ⌊x⌋ else ⌊x⌋ + 1

/-- Binary exponent used to round `x` to binary32: `⌊log2 |x|⌋`, but not below -126 (minimum
normal exponent; smaller values are subnormal). -/
def f32Exp (x : ℚ) : Int := max (Int.log 2 |x|) (-126)

/-- Spacing of the binary32 values around `x`: 24 significant bits. -/
def f32Ulp (x : ℚ) : ℚ := 2 ^ (f32Exp x - 23)

/-- Rounding of a non-negative magnitude to the binary32 grid, exponent unbounded above. -/
def f32Mag (x : ℚ) : ℚ := halfEven (x / f32Ulp x) * f32Ulp x

/-- Rounding to nearest, ties to even, of any rational (sign and magnitude), exponent
unbounded above. -/
def roundF32U (q : ℚ) : ℚ := if 0 ≤ q then f32Mag q else -f32Mag (-q)

/-- Rounding to binary32: `none` when the rounded magnitude reaches `2^128` (overflow). -/
def roundF32 (q : ℚ) : Option ℚ := if |roundF32U q| < 2 ^ 128 then some (roundF32U q) else none

/-- The rational `q` is a finite binary32 value. -/
def IsF32 (q : ℚ) : Prop := roundF32 q = some q

instance (q : ℚ) : Decidable (IsF32 q) := by
  unfold IsF32
  infer_instance

/-- Value held by `const float MIN_COUNT = 1638.4;` (1638.4000244140625). -/
def MIN_COUNT_F32 : ℚ := roundF32U MIN_COUNT

/-- Value held by `const float MAX_COUNT = 14745.6;` (14745.599609375). -/
def MAX_COUNT_F32 : ℚ := roundF32U MAX_COUNT

/-- Static `float countsToPressure(const int counts, const float min_pressure, const float
max_pressure)` evaluated in binary32, one rounding per operation of
`((((float)counts - MIN_COUNT) * (max_pressure - min_pressure)) / (MAX_COUNT - MIN_COUNT))
+ min_pressure`; `none` is a non-finite result. -/
def TruStabilityPressureSensor.countsToPressureF32 (counts : Int) (min_pressure : ℚ)
    (max_pressure : ℚ) : Option ℚ := do
  -- (float)counts
  let fc ← roundF32 (counts : ℚ)
  -- (float)counts - MIN_COUNT
  let r1 ← roundF32 (fc - MIN_COUNT_F32)
  -- max_pressure - min_pressure
  let r2 ← roundF32 (max_pressure - min_pressure)
  let r3 ← roundF32 (r1 * r2)
  -- MAX_COUNT - MIN_COUNT
  let r4 ← roundF32 (MAX_COUNT_F32 - MIN_COUNT_F32)
  let r5 ← roundF32 (r3 / r4)
  roundF32 (r5 + min_pressure)

/-! ### Notions used to state properties of polling histories and of encoded frames -/

/-- The last frame of a polling history whose status bits `frame[0] >> 6` are 0 (Normal),
if there is one. -/
def lastNormal (frames : List Frame) : Option Frame :=
  frames.reverse.find? (fun f => decide (f.b0.val >>> 6 = 0))

/-- Conversion of an integer value to `uint8_t`, used to write down the bytes of a frame. -/
def byteOf (n : Nat) : Byte :=
  ⟨n % 256, Nat.mod_lt n (by decide)⟩

/-! ## Facts about one byte -/

section ByteFacts

set_option maxRecDepth 100000

theorem byte_status_eq (b : Byte) : u8 ((b.val >>> 6) &&& 0x3) = b.val >>> 6 := by
  revert b; decide

theorem byte_status_and (b : Byte) : u8 ((b.val >>> 6) &&& 0x3) = (b.val >>> 6) &&& 0x3 := by
  revert b; decide

theorem byte_status_lt (b : Byte) : u8 ((b.val >>> 6) &&& 0x3) < 4 := by
  revert b; decide

theorem byte_pressure_hi (b : Byte) :
    u16 (b.val <<< 8) &&& 0x3F00 = (b.val &&& 0x3F) <<< 8 := by
  revert b; decide

theorem byte_and_ff (b : Byte) : b.val &&& 0xFF = b.val := by
  revert b; decide

theorem byte_temperature_hi (b : Byte) :
    u16 (b.val <<< 3) &&& 0x7F8 = (b.val <<< 3) &&& 0x7F8 := by
  revert b; decide

theorem byte_temperature_lo (b : Byte) : (b.val >>> 5) &&& 0x7 = b.val >>> 5 := by
  revert b; decide

end ByteFacts

/-! ## Unfolding `readSensor` -/

theorem readSensor_status (s : TruStabilityPressureSensor) (rx : Frame) :
    (s.readSensor rx).2._status = rx.b0.val >>> 6 := by
  unfold TruStabilityPressureSensor.readSensor
  simp only [byte_status_eq]
  split <;> rfl

theorem readSensor_fst (s : TruStabilityPressureSensor) (rx : Frame) :
    (s.readSensor rx).1 = (s.readSensor rx).2._status := rfl

theorem readSensor_normal (s : TruStabilityPressureSensor) (rx : Frame)
    (h : rx.b0.val >>> 6 = 0) :
    (s.readSensor rx).2 =
      { s with
        _buf := rx
        _status := 0
        _pressure_count := ((((rx.b0.val &&& 0x3F) <<< 8) ||| rx.b1.val : Nat) : Int)
        _temperature_count := ((((rx.b2.val <<< 3) &&& 0x7F8) ||| (rx.b3.val >>> 5) : Nat) : Int) } := by
  unfold TruStabilityPressureSensor.readSensor
  simp only [byte_status_eq, byte_pressure_hi, byte_and_ff, byte_temperature_hi,
    byte_temperature_lo]
  simp only [h, if_true]

theorem readSensor_not_normal (s : TruStabilityPressureSensor) (rx : Frame)
    (h : rx.b0.val >>> 6 ≠ 0) :
    (s.readSensor rx).2 = { s with _buf := rx, _status := rx.b0.val >>> 6 } := by
  unfold TruStabilityPressureSensor.readSensor
  simp only [byte_status_eq]
  simp only [h, if_false]

/-! ## Claims -/

/-- C1: for every frame whose byte 0 has its top two bits equal to 0 and every prior state,
after `readSensor` the raw pressure is `((frame[0] & 0x3F) << 8) | frame[1]` and the raw
temperature is `((frame[2] << 3) & 0x7F8) | (frame[3] >> 5)`. -/
theorem readSensor_normal_counts (s : TruStabilityPressureSensor) (rx : Frame)
    (h : rx.b0.val >>> 6 = 0) :
    (s.readSensor rx).2.rawPressure.1 = ((((rx.b0.val &&& 0x3F) <<< 8) ||| rx.b1.val : Nat) : Int)
    ∧ (s.readSensor rx).2.rawTemperature.1
        = ((((rx.b2.val <<< 3) &&& 0x7F8) ||| (rx.b3.val >>> 5) : Nat) : Int) := by
  rw [readSensor_normal s rx h]
  exact ⟨rfl, rfl⟩

/-- Witness for `readSensor_normal_counts`: the frame `[0x2A, 0x5C, 0x81, 0xE7]` read by a
sensor whose last good counts were 1000 and 500. -/
theorem readSensor_normal_counts_witness :
    (⟨0x2A, 0x5C, 0x81, 0xE7⟩ : Frame).b0.val >>> 6 = 0
    ∧ ((⟨3, 0, 30, ⟨800000, 1, 0⟩, ⟨0, 0, 0, 0⟩, 2, 1000, 500⟩ :
          TruStabilityPressureSensor).readSensor ⟨0x2A, 0x5C, 0x81, 0xE7⟩).2.rawPressure.1
        = (((((⟨0x2A, 0x5C, 0x81, 0xE7⟩ : Frame).b0.val &&& 0x3F) <<< 8)
            ||| (⟨0x2A, 0x5C, 0x81, 0xE7⟩ : Frame).b1.val : Nat) : Int)
    ∧ ((⟨3, 0, 30, ⟨800000, 1, 0⟩, ⟨0, 0, 0, 0⟩, 2, 1000, 500⟩ :
          TruStabilityPressureSensor).readSensor ⟨0x2A, 0x5C, 0x81, 0xE7⟩).2.rawTemperature.1
        = (((((⟨0x2A, 0x5C, 0x81, 0xE7⟩ : Frame).b2.val <<< 3) &&& 0x7F8)
            ||| ((⟨0x2A, 0x5C, 0x81, 0xE7⟩ : Frame).b3.val >>> 5) : Nat) : Int) :=
  ⟨by decide,
    readSensor_normal_counts ⟨3, 0, 30, ⟨800000, 1, 0⟩, ⟨0, 0, 0, 0⟩, 2, 1000, 500⟩
      ⟨0x2A, 0x5C, 0x81, 0xE7⟩ (by decide)⟩

/-- C2: for every frame whose byte 0 has top two bits different from 0 and every prior state,
the raw pressure and raw temperature after `readSensor` equal their values before the call. -/
theorem readSensor_not_normal_counts (s : TruStabilityPressureSensor) (rx : Frame)
    (h : rx.b0.val >>> 6 ≠ 0) :
    (s.readSensor rx).2.rawPressure.1 = s.rawPressure.1
    ∧ (s.readSensor rx).2.rawTemperature.1 = s.rawTemperature.1 := by
  rw [readSensor_not_normal s rx h]
  exact ⟨rfl, rfl⟩

/-- Witness for `readSensor_not_normal_counts`: the stale-data frame `[0x9F, 0x33, 0x44, 0x55]`
read by a sensor whose last good counts were 1000 and 500. -/
theorem readSensor_not_normal_counts_witness :
    (⟨0x9F, 0x33, 0x44, 0x55⟩ : Frame).b0.val >>> 6 ≠ 0
    ∧ ((⟨3, 0, 30, ⟨800000, 1, 0⟩, ⟨0, 0, 0, 0⟩, 0, 1000, 500⟩ :
          TruStabilityPressureSensor).readSensor ⟨0x9F, 0x33, 0x44, 0x55⟩).2.rawPressure.1
        = (⟨3, 0, 30, ⟨800000, 1, 0⟩, ⟨0, 0, 0, 0⟩, 0, 1000, 500⟩ :
          TruStabilityPressureSensor).rawPressure.1
    ∧ ((⟨3, 0, 30, ⟨800000, 1, 0⟩, ⟨0, 0, 0, 0⟩, 0, 1000, 500⟩ :
          TruStabilityPressureSensor).readSensor ⟨0x9F, 0x33, 0x44, 0x55⟩).2.rawTemperature.1
        = (⟨3, 0, 30, ⟨800000, 1, 0⟩, ⟨0, 0, 0, 0⟩, 0, 1000, 500⟩ :
          TruStabilityPressureSensor).rawTemperature.1 :=
  ⟨by decide,
    readSensor_not_normal_counts ⟨3, 0, 30, ⟨800000, 1, 0⟩, ⟨0, 0, 0, 0⟩, 0, 1000, 500⟩
      ⟨0x9F, 0x33, 0x44, 0x55⟩ (by decide)⟩

/-- C3: for every frame and prior state, the value returned by `readSensor` equals the value
`status()` returns afterwards, equals `(frame[0] >> 6) & 0b11`, is one of 0, 1, 2, 3, and is
the same for any other prior state and any other bytes 1..3. -/
theorem readSensor_returns_status (s s' : TruStabilityPressureSensor)
    (b0 b1 b2 b3 c1 c2 c3 : Byte) :
    (s.readSensor ⟨b0, b1, b2, b3⟩).1 = (s.readSensor ⟨b0, b1, b2, b3⟩).2.status.1
    ∧ (s.readSensor ⟨b0, b1, b2, b3⟩).1 = (b0.val >>> 6) &&& 0b11
    ∧ ((s.readSensor ⟨b0, b1, b2, b3⟩).1 = 0 ∨ (s.readSensor ⟨b0, b1, b2, b3⟩).1 = 1
        ∨ (s.readSensor ⟨b0, b1, b2, b3⟩).1 = 2 ∨ (s.readSensor ⟨b0, b1, b2, b3⟩).1 = 3)
    ∧ (s'.readSensor ⟨b0, c1, c2, c3⟩).1 = (s.readSensor ⟨b0, b1, b2, b3⟩).1 := by
  have hs : ∀ (t : TruStabilityPressureSensor) (rx : Frame),
      (t.readSensor rx).1 = rx.b0.val >>> 6 := fun t rx => by
    rw [readSensor_fst, readSensor_status]
  have hlt := byte_status_lt b0
  rw [byte_status_eq] at hlt
  refine ⟨rfl, ?_, ?_, ?_⟩
  · rw [hs]
    exact (byte_status_eq b0).symm.trans (byte_status_and b0)
  · rw [hs]
    show b0.val >>> 6 = 0 ∨ b0.val >>> 6 = 1 ∨ b0.val >>> 6 = 2 ∨ b0.val >>> 6 = 3
    omega
  · rw [hs, hs]

/-! ## Polling histories keep the calibration range -/

theorem readSensor_range (s : TruStabilityPressureSensor) (rx : Frame) :
    (s.readSensor rx).2._MIN_PRESSURE = s._MIN_PRESSURE
    ∧ (s.readSensor rx).2._MAX_PRESSURE = s._MAX_PRESSURE := by
  unfold TruStabilityPressureSensor.readSensor
  constructor <;> (dsimp only; split <;> rfl)

theorem readSensorSeq_range (frames : List Frame) (s : TruStabilityPressureSensor) :
    (s.readSensorSeq frames)._MIN_PRESSURE = s._MIN_PRESSURE
    ∧ (s.readSensorSeq frames)._MAX_PRESSURE = s._MAX_PRESSURE := by
  induction frames generalizing s with
  | nil => exact ⟨rfl, rfl⟩
  | cons rx rest ih =>
    have h := ih (s.readSensor rx).2
    have h1 := readSensor_range s rx
    exact ⟨h.1.trans h1.1, h.2.trans h1.2⟩

/-- C4: on a sensor constructed with calibration range (0, 30), whatever it has read before,
reading the frame `[0x19, 0x99, 0x66, 0x60]` returns status 0 and leaves raw pressure 6553 and
raw temperature 819; then `pressure()` is `((6553 - 1638.4) * (30 - 0) / (14745.6 - 1638.4)) + 0`,
within 0.01 of 11.25, and `temperature()` is `(819 / 2047) * 200 - 50`, within 0.05 of 30. -/
theorem readSensor_scenario (pin : Byte) (cfg : SPISettings) (buf : Frame)
    (frames : List Frame) :
    (((TruStabilityPressureSensor.new pin 0 30 cfg buf).readSensorSeq frames).readSensor
        ⟨0x19, 0x99, 0x66, 0x60⟩).1 = 0
    ∧ (((TruStabilityPressureSensor.new pin 0 30 cfg buf).readSensorSeq frames).readSensor
        ⟨0x19, 0x99, 0x66, 0x60⟩).2.rawPressure.1 = 6553
    ∧ (((TruStabilityPressureSensor.new pin 0 30 cfg buf).readSensorSeq frames).readSensor
        ⟨0x19, 0x99, 0x66, 0x60⟩).2.rawTemperature.1 = 819
    ∧ (((TruStabilityPressureSensor.new pin 0 30 cfg buf).readSensorSeq frames).readSensor
        ⟨0x19, 0x99, 0x66, 0x60⟩).2.pressure.1
        = ((6553 - 1638.4) * (30 - 0) / (14745.6 - 1638.4)) + 0
    ∧ |(((TruStabilityPressureSensor.new pin 0 30 cfg buf).readSensorSeq frames).readSensor
        ⟨0x19, 0x99, 0x66, 0x60⟩).2.pressure.1 - 11.25| ≤ 0.01
    ∧ (((TruStabilityPressureSensor.new pin 0 30 cfg buf).readSensorSeq frames).readSensor
        ⟨0x19, 0x99, 0x66, 0x60⟩).2.temperature.1 = (819 / 2047) * 200 - 50
    ∧ |(((TruStabilityPressureSensor.new pin 0 30 cfg buf).readSensorSeq frames).readSensor
        ⟨0x19, 0x99, 0x66, 0x60⟩).2.temperature.1 - 30.0| ≤ 0.05 := by
  have hr := readSensorSeq_range frames (TruStabilityPressureSensor.new pin 0 30 cfg buf)
  generalize (TruStabilityPressureSensor.new pin 0 30 cfg buf).readSensorSeq frames = s at hr ⊢
  have hmin : s._MIN_PRESSURE = 0 := hr.1
  have hmax : s._MAX_PRESSURE = 30 := hr.2
  have hn : (⟨0x19, 0x99, 0x66, 0x60⟩ : Frame).b0.val >>> 6 = 0 := by decide
  have hst : (s.readSensor ⟨0x19, 0x99, 0x66, 0x60⟩).1 = 0 := by
    rw [readSensor_fst, readSensor_status]; exact hn
  have hp : (s.readSensor ⟨0x19, 0x99, 0x66, 0x60⟩).2._pressure_count = 6553 := by
    rw [readSensor_normal s _ hn]; rfl
  have ht : (s.readSensor ⟨0x19, 0x99, 0x66, 0x60⟩).2._temperature_count = 819 := by
    rw [readSensor_normal s _ hn]; rfl
  have hr2 := readSensor_range s ⟨0x19, 0x99, 0x66, 0x60⟩
  have hP : (s.readSensor ⟨0x19, 0x99, 0x66, 0x60⟩).2.pressure.1
      = ((6553 - 1638.4) * (30 - 0) / (14745.6 - 1638.4)) + 0 := by
    show TruStabilityPressureSensor.countsToPressure _ _ _ = _
    rw [hp, hr2.1, hr2.2, hmin, hmax]
    unfold TruStabilityPressureSensor.countsToPressure MIN_COUNT MAX_COUNT
    norm_num
  have hT : (s.readSensor ⟨0x19, 0x99, 0x66, 0x60⟩).2.temperature.1
      = (819 / 2047) * 200 - 50 := by
    show TruStabilityPressureSensor.countsToTemperatures _ = _
    rw [ht]
    unfold TruStabilityPressureSensor.countsToTemperatures
    norm_num
  refine ⟨hst, hp, ht, hP, ?_, hT, ?_⟩
  · rw [hP, abs_le]; constructor <;> norm_num
  · rw [hT, abs_le]; constructor <;> norm_num

/-! ## Conversion at the calibration points -/

theorem floatToInt_MIN_COUNT : floatToInt MIN_COUNT = 1638 := by
  unfold floatToInt MIN_COUNT
  rw [if_pos (by norm_num), Int.floor_eq_iff]
  constructor <;> norm_num

theorem floatToInt_MAX_COUNT : floatToInt MAX_COUNT = 14745 := by
  unfold floatToInt MAX_COUNT
  rw [if_pos (by norm_num), Int.floor_eq_iff]
  constructor <;> norm_num

theorem countsToPressure_1638 (a b : ℚ) :
    TruStabilityPressureSensor.countsToPressure 1638 a b = a - 0.4 * (b - a) / 13107.2 := by
  unfold TruStabilityPressureSensor.countsToPressure MIN_COUNT MAX_COUNT
  norm_num
  ring

theorem countsToPressure_14745 (a b : ℚ) :
    TruStabilityPressureSensor.countsToPressure 14745 a b = b - 0.6 * (b - a) / 13107.2 := by
  unfold TruStabilityPressureSensor.countsToPressure MIN_COUNT MAX_COUNT
  norm_num
  ring

/-- C6: `countsToTemperatures` returns exactly -50 for counts 0 and exactly 150 for counts 2047. -/
theorem countsToTemperatures_endpoints :
    TruStabilityPressureSensor.countsToTemperatures 0 = -50.0
    ∧ TruStabilityPressureSensor.countsToTemperatures 2047 = 150.0 := by
  unfold TruStabilityPressureSensor.countsToTemperatures
  constructor <;> norm_num

/-! ## Range of the stored counts -/

section CountBounds

set_option maxRecDepth 100000

theorem byte_pressure_hi_lt (b : Byte) : (b.val &&& 0x3F) <<< 8 < 2 ^ 14 := by
  revert b; decide

theorem byte_temperature_hi_lt (b : Byte) : (b.val <<< 3) &&& 0x7F8 < 2 ^ 11 := by
  revert b; decide

theorem byte_temperature_lo_lt (b : Byte) : b.val >>> 5 < 2 ^ 11 := by
  revert b; decide

theorem byte_shift_eq_mask (b : Byte) : (b.val <<< 8) >>> 5 = (b.val <<< 3) &&& 0x7F8 := by
  revert b; decide

theorem byte_pressure_shl (b : Byte) : (b.val &&& 0x3f) * 2 ^ 8 < 2 ^ 16 := by
  revert b; decide

end CountBounds

theorem pressure_bits_le (b0 b1 : Byte) :
    ((((b0.val &&& 0x3F) <<< 8) ||| b1.val : Nat) : Int) ≤ 16383 := by
  have h1 : b1.val < 2 ^ 14 := lt_trans b1.isLt (by norm_num)
  have h := Nat.or_lt_two_pow (byte_pressure_hi_lt b0) h1
  have h2 : (((b0.val &&& 0x3F) <<< 8) ||| b1.val) ≤ 16383 := by
    have : (2 : Nat) ^ 14 = 16384 := by norm_num
    omega
  exact_mod_cast h2

theorem temperature_bits_le (b2 b3 : Byte) :
    ((((b2.val <<< 3) &&& 0x7F8) ||| (b3.val >>> 5) : Nat) : Int) ≤ 2047 := by
  have h := Nat.or_lt_two_pow (byte_temperature_hi_lt b2) (byte_temperature_lo_lt b3)
  have h2 : (((b2.val <<< 3) &&& 0x7F8) ||| (b3.val >>> 5)) ≤ 2047 := by
    have : (2 : Nat) ^ 11 = 2048 := by norm_num
    omega
  exact_mod_cast h2

/-- The count ranges are kept by one `readSensor`. -/
theorem readSensor_keeps_ranges (s : TruStabilityPressureSensor) (rx : Frame)
    (h : 0 ≤ s._pressure_count ∧ s._pressure_count ≤ 16383
      ∧ 0 ≤ s._temperature_count ∧ s._temperature_count ≤ 2047) :
    0 ≤ (s.readSensor rx).2._pressure_count ∧ (s.readSensor rx).2._pressure_count ≤ 16383
    ∧ 0 ≤ (s.readSensor rx).2._temperature_count
    ∧ (s.readSensor rx).2._temperature_count ≤ 2047 := by
  by_cases hn : rx.b0.val >>> 6 = 0
  · rw [readSensor_normal s rx hn]
    exact ⟨Int.ofNat_nonneg _, pressure_bits_le rx.b0 rx.b1, Int.ofNat_nonneg _,
      temperature_bits_le rx.b2 rx.b3⟩
  · rw [readSensor_not_normal s rx hn]
    exact h

theorem readSensorSeq_keeps_ranges (frames : List Frame) (s : TruStabilityPressureSensor)
    (h : 0 ≤ s._pressure_count ∧ s._pressure_count ≤ 16383
      ∧ 0 ≤ s._temperature_count ∧ s._temperature_count ≤ 2047) :
    0 ≤ (s.readSensorSeq frames)._pressure_count
    ∧ (s.readSensorSeq frames)._pressure_count ≤ 16383
    ∧ 0 ≤ (s.readSensorSeq frames)._temperature_count
    ∧ (s.readSensorSeq frames)._temperature_count ≤ 2047 := by
  induction frames generalizing s with
  | nil => exact h
  | cons rx rest ih => exact ih (s.readSensor rx).2 (readSensor_keeps_ranges s rx h)

/-- C7: in every state reached from a freshly constructed sensor by a finite sequence of
`readSensor` calls on arbitrary frames, `0 ≤ rawPressure() ≤ 16383` and
`0 ≤ rawTemperature() ≤ 2047`. -/
theorem reachable_counts_in_range (pin : Byte) (a b : ℚ) (cfg : SPISettings) (buf : Frame)
    (frames : List Frame) :
    0 ≤ ((TruStabilityPressureSensor.new pin a b cfg buf).readSensorSeq frames).rawPressure.1
    ∧ ((TruStabilityPressureSensor.new pin a b cfg buf).readSensorSeq frames).rawPressure.1
        ≤ 16383
    ∧ 0 ≤ ((TruStabilityPressureSensor.new pin a b cfg buf).readSensorSeq frames).rawTemperature.1
    ∧ ((TruStabilityPressureSensor.new pin a b cfg buf).readSensorSeq frames).rawTemperature.1
        ≤ 2047 :=
  readSensorSeq_keeps_ranges frames (TruStabilityPressureSensor.new pin a b cfg buf)
    ⟨le_refl _, show (0 : Int) ≤ 16383 by decide, le_refl _, show (0 : Int) ≤ 2047 by decide⟩

/-! ## The older and the refactored decode -/

theorem shiftRight_or (a b i : Nat) : (a ||| b) >>> i = (a >>> i) ||| (b >>> i) := by
  apply Nat.eq_of_testBit_eq
  intro j
  simp only [Nat.testBit_shiftRight, Nat.testBit_or]

theorem shlInt_of_lt (intBits x k : Nat) (hw : 16 < intBits) (hx : x * 2 ^ k < 2 ^ 16) :
    shlInt intBits x k = some (x <<< k) := by
  unfold shlInt
  have hle : (2 : Nat) ^ 16 ≤ 2 ^ (intBits - 1) :=
    Nat.pow_le_pow_right (by norm_num) (by omega)
  rw [if_pos (lt_of_lt_of_le hx hle)]

theorem old_temperature_eq (b2 b3 : Byte) :
    ((b2.val <<< 8) ||| b3.val) >>> 5 = ((b2.val <<< 3) &&& 0x7F8) ||| (b3.val >>> 5) := by
  rw [shiftRight_or, byte_shift_eq_mask]

/-- C8: with an `int` of more than 16 bits, for every frame and equal prior counts, the older
`TruStability_PressureSensor::readSensor` is defined, returns the status the refactored
`TruStabilityPressureSensor::readSensor` returns, and leaves the same two counts. -/
theorem readSensor_old_eq_new (intBits : Nat) (o : TruStability_PressureSensor)
    (n : TruStabilityPressureSensor) (rx : Frame) (hw : 16 < intBits)
    (hp : o._pressure_count = n._pressure_count)
    (ht : o._temperature_count = n._temperature_count) :
    ∃ o1 : TruStability_PressureSensor,
      o.readSensor intBits rx = some ((n.readSensor rx).1, o1)
      ∧ o1._pressure_count = (n.readSensor rx).2._pressure_count
      ∧ o1._temperature_count = (n.readSensor rx).2._temperature_count := by
  have hu8 : u8 (rx.b0.val >>> 6) = rx.b0.val >>> 6 := by
    have h := byte_status_lt rx.b0
    rw [byte_status_eq] at h
    unfold u8
    omega
  have hb2 : rx.b2.val * 2 ^ 8 < 2 ^ 16 := by
    have := rx.b2.isLt
    norm_num
    omega
  rw [readSensor_fst, readSensor_status]
  by_cases hn : rx.b0.val >>> 6 = 0
  · rw [readSensor_normal n rx hn]
    unfold TruStability_PressureSensor.readSensor
    simp only [hu8]
    simp only [hn, if_true, shlInt_of_lt intBits _ 8 hw (byte_pressure_shl rx.b0),
      shlInt_of_lt intBits _ 8 hw hb2, Option.pure_def, Option.bind_eq_bind, Option.some_bind]
    refine ⟨_, rfl, rfl, ?_⟩
    simp only [old_temperature_eq]
  · rw [readSensor_not_normal n rx hn]
    unfold TruStability_PressureSensor.readSensor
    simp only [hu8]
    simp only [hn, if_false]
    exact ⟨_, rfl, hp, ht⟩

/-- Witness for `readSensor_old_eq_new`: a 32-bit `int`, both drivers holding counts 1000 and
500, reading the frame `[0x2A, 0x5C, 0x81, 0xE7]`. -/
theorem readSensor_old_eq_new_witness :
    16 < 32
    ∧ (⟨3, 0, 30, ⟨800000, 1, 0⟩, ⟨0, 0, 0, 0⟩, 1000, 500⟩ :
        TruStability_PressureSensor)._pressure_count
      = (⟨3, 0, 30, ⟨800000, 1, 0⟩, ⟨0, 0, 0, 0⟩, 2, 1000, 500⟩ :
        TruStabilityPressureSensor)._pressure_count
    ∧ (⟨3, 0, 30, ⟨800000, 1, 0⟩, ⟨0, 0, 0, 0⟩, 1000, 500⟩ :
        TruStability_PressureSensor)._temperature_count
      = (⟨3, 0, 30, ⟨800000, 1, 0⟩, ⟨0, 0, 0, 0⟩, 2, 1000, 500⟩ :
        TruStabilityPressureSensor)._temperature_count
    ∧ ∃ o1 : TruStability_PressureSensor,
      (⟨3, 0, 30, ⟨800000, 1, 0⟩, ⟨0, 0, 0, 0⟩, 1000, 500⟩ :
        TruStability_PressureSensor).readSensor 32 ⟨0x2A, 0x5C, 0x81, 0xE7⟩
        = some (((⟨3, 0, 30, ⟨800000, 1, 0⟩, ⟨0, 0, 0, 0⟩, 2, 1000, 500⟩ :
            TruStabilityPressureSensor).readSensor ⟨0x2A, 0x5C, 0x81, 0xE7⟩).1, o1)
      ∧ o1._pressure_count
        = ((⟨3, 0, 30, ⟨800000, 1, 0⟩, ⟨0, 0, 0, 0⟩, 2, 1000, 500⟩ :
            TruStabilityPressureSensor).readSensor ⟨0x2A, 0x5C, 0x81, 0xE7⟩).2._pressure_count
      ∧ o1._temperature_count
        = ((⟨3, 0, 30, ⟨800000, 1, 0⟩, ⟨0, 0, 0, 0⟩, 2, 1000, 500⟩ :
            TruStabilityPressureSensor).readSensor ⟨0x2A, 0x5C, 0x81, 0xE7⟩).2._temperature_count :=
  ⟨by decide, rfl, rfl,
    readSensor_old_eq_new 32 ⟨3, 0, 30, ⟨800000, 1, 0⟩, ⟨0, 0, 0, 0⟩, 1000, 500⟩
      ⟨3, 0, 30, ⟨800000, 1, 0⟩, ⟨0, 0, 0, 0⟩, 2, 1000, 500⟩ ⟨0x2A, 0x5C, 0x81, 0xE7⟩
      (by decide) rfl rfl⟩

/-- With a 16-bit `int` the older decode of the same frame is undefined: `0x81 << 8` is not
representable, which is why the comparison asks for more than 16 bits. -/
theorem readSensor_old_16bit_overflow :
    (⟨3, 0, 30, ⟨800000, 1, 0⟩, ⟨0, 0, 0, 0⟩, 1000, 500⟩ :
      TruStability_PressureSensor).readSensor 16 ⟨0x2A, 0x5C, 0x81, 0xE7⟩ = none := by
  rfl

/-- C9: a freshly constructed sensor, for every calibration range, has raw pressure 0 and raw
temperature 0. -/
theorem new_counts_zero (pin : Byte) (a b : ℚ) (cfg : SPISettings) (buf : Frame) :
    (TruStabilityPressureSensor.new pin a b cfg buf).rawPressure.1 = 0
    ∧ (TruStabilityPressureSensor.new pin a b cfg buf).rawTemperature.1 = 0 :=
  ⟨rfl, rfl⟩

/-- C10: `status()`, `rawPressure()`, `rawTemperature()`, `pressure()` and `temperature()`
leave every state unchanged; `pressure()` and `temperature()` repeated any number of times
return the same values, which are `countsToPressure(rawPressure(), min, max)` and
`countsToTemperatures(rawTemperature())`. -/
theorem accessors_pure (s : TruStabilityPressureSensor) (k : Nat) :
    s.status.2 = s ∧ s.rawPressure.2 = s ∧ s.rawTemperature.2 = s
    ∧ s.pressure.2 = s ∧ s.temperature.2 = s
    ∧ ((fun st : TruStabilityPressureSensor => st.pressure.2)^[k] s).pressure.1 = s.pressure.1
    ∧ ((fun st : TruStabilityPressureSensor => st.temperature.2)^[k] s).temperature.1
        = s.temperature.1
    ∧ s.temperature.2.pressure.1 = s.pressure.1
    ∧ s.pressure.2.temperature.1 = s.temperature.1
    ∧ s.pressure.1
        = TruStabilityPressureSensor.countsToPressure s.rawPressure.1 s._MIN_PRESSURE
            s._MAX_PRESSURE
    ∧ s.temperature.1 = TruStabilityPressureSensor.countsToTemperatures s.rawTemperature.1 := by
  refine ⟨rfl, rfl, rfl, rfl, rfl, ?_, ?_, rfl, rfl, rfl, rfl⟩
  · rw [Function.iterate_fixed
      (show (fun st : TruStabilityPressureSensor => st.pressure.2) s = s from rfl) k]
  · rw [Function.iterate_fixed
      (show (fun st : TruStabilityPressureSensor => st.temperature.2) s = s from rfl) k]

/-! ## Polling histories -/

theorem readSensorSeq_append_one (s : TruStabilityPressureSensor) (frames : List Frame)
    (rx : Frame) :
    s.readSensorSeq (frames ++ [rx]) = ((s.readSensorSeq frames).readSensor rx).2 := by
  unfold TruStabilityPressureSensor.readSensorSeq
  rw [List.foldl_append]
  rfl

theorem lastNormal_append_one (frames : List Frame) (rx : Frame) :
    lastNormal (frames ++ [rx]) = if rx.b0.val >>> 6 = 0 then some rx else lastNormal frames := by
  unfold lastNormal
  rw [List.reverse_append, List.reverse_singleton, List.singleton_append, List.find?_cons]
  by_cases h : rx.b0.val >>> 6 = 0
  · simp only [h, decide_True, if_true]
  · simp only [h, decide_False, if_false]

/-- Counts after a polling history started in any state `s`: those of the last Normal frame,
or the counts of `s` when no frame was Normal. -/
theorem readSensorSeq_counts (s : TruStabilityPressureSensor) (frames : List Frame) :
    (s.readSensorSeq frames)._pressure_count
      = ((lastNormal frames).map
          (fun f => ((((f.b0.val &&& 0x3F) <<< 8) ||| f.b1.val : Nat) : Int))).getD
            s._pressure_count
    ∧ (s.readSensorSeq frames)._temperature_count
      = ((lastNormal frames).map
          (fun f => ((((f.b2.val <<< 3) &&& 0x7F8) ||| (f.b3.val >>> 5) : Nat) : Int))).getD
            s._temperature_count := by
  induction frames using List.reverseRecOn with
  | nil => exact ⟨rfl, rfl⟩
  | append_singleton init rx ih =>
    rw [readSensorSeq_append_one, lastNormal_append_one]
    by_cases h : rx.b0.val >>> 6 = 0
    · rw [readSensor_normal _ rx h, if_pos h]
      exact ⟨rfl, rfl⟩
    · rw [readSensor_not_normal _ rx h, if_neg h]
      exact ih

theorem readSensorSeq_status (s : TruStabilityPressureSensor) (frames : List Frame) :
    (s.readSensorSeq frames)._status
      = (frames.getLast?.map (fun f => (f.b0.val >>> 6) &&& 0b11)).getD s._status := by
  induction frames using List.reverseRecOn with
  | nil => rfl
  | append_singleton init rx _ =>
    rw [readSensorSeq_append_one, readSensor_status, List.getLast?_append, List.getLast?_singleton]
    exact (byte_status_eq rx.b0).symm.trans (byte_status_and rx.b0)

/-- C11: for every finite sequence of frames read in order by a freshly constructed sensor, the
final raw pressure and raw temperature are the counts decoded from the last frame of the
sequence whose status is Normal, or 0 and 0 when the sequence has no Normal frame, and
`status()` is the status of the last frame of the sequence (0 for the empty sequence). -/
theorem readSensorSeq_last_good_counts (pin : Byte) (a b : ℚ) (cfg : SPISettings) (buf : Frame)
    (frames : List Frame) :
    ((TruStabilityPressureSensor.new pin a b cfg buf).readSensorSeq frames).rawPressure.1
      = ((lastNormal frames).map
          (fun f => ((((f.b0.val &&& 0x3F) <<< 8) ||| f.b1.val : Nat) : Int))).getD 0
    ∧ ((TruStabilityPressureSensor.new pin a b cfg buf).readSensorSeq frames).rawTemperature.1
      = ((lastNormal frames).map
          (fun f => ((((f.b2.val <<< 3) &&& 0x7F8) ||| (f.b3.val >>> 5) : Nat) : Int))).getD 0
    ∧ ((TruStabilityPressureSensor.new pin a b cfg buf).readSensorSeq frames).status.1
      = (frames.getLast?.map (fun f => (f.b0.val >>> 6) &&& 0b11)).getD 0 :=
  ⟨(readSensorSeq_counts _ frames).1, (readSensorSeq_counts _ frames).2,
    readSensorSeq_status _ frames⟩

/-! ## The pressure conversion as a line in the count -/

theorem countsToPressure_linear (c : Int) (a b : ℚ) :
    TruStabilityPressureSensor.countsToPressure c a b
      = a + (((c : ℚ) - 1638.4) / 13107.2) * (b - a) := by
  unfold TruStabilityPressureSensor.countsToPressure MIN_COUNT MAX_COUNT
  norm_num
  ring

/-! ## The temperature conversion -/

theorem countsToTemperatures_linear (t : Int) :
    TruStabilityPressureSensor.countsToTemperatures t = (t : ℚ) / 2047 * 200 - 50 := by
  unfold TruStabilityPressureSensor.countsToTemperatures
  norm_num

theorem countsToTemperatures_strictMono :
    StrictMono TruStabilityPressureSensor.countsToTemperatures := by
  intro t1 t2 hlt
  have hq : (t1 : ℚ) < (t2 : ℚ) := by exact_mod_cast hlt
  rw [countsToTemperatures_linear, countsToTemperatures_linear]
  have h := div_lt_div_of_pos_right hq (show (0 : ℚ) < 2047 by norm_num)
  linarith

theorem countsToTemperatures_bounds (t : Int) (h0 : 0 ≤ t) (h1 : t ≤ 2047) :
    -50 ≤ TruStabilityPressureSensor.countsToTemperatures t
    ∧ TruStabilityPressureSensor.countsToTemperatures t ≤ 150 := by
  have hq0 : (0 : ℚ) ≤ (t : ℚ) := by exact_mod_cast h0
  have hq1 : (t : ℚ) ≤ 2047 := by exact_mod_cast h1
  rw [countsToTemperatures_linear]
  have hlo : (0 : ℚ) ≤ (t : ℚ) / 2047 := div_nonneg hq0 (by norm_num)
  have hhi : (t : ℚ) / 2047 ≤ 1 := by
    rw [div_le_one (by norm_num)]
    exact hq1
  constructor <;> linarith

/-- C13: for every temperature count `t` with `0 ≤ t ≤ 2047`, `countsToTemperatures(t)` is
`t / 2047 * 200 - 50` and lies in `[-50, 150]`; the conversion is strictly increasing; hence
`temperature()` lies in `[-50, 150]` in every state reached from a fresh sensor. -/
theorem countsToTemperatures_span (t : Int) (pin : Byte) (a b : ℚ) (cfg : SPISettings)
    (buf : Frame) (frames : List Frame) (h0 : 0 ≤ t) (h1 : t ≤ 2047) :
    TruStabilityPressureSensor.countsToTemperatures t = (t : ℚ) / 2047 * 200 - 50
    ∧ -50 ≤ TruStabilityPressureSensor.countsToTemperatures t
    ∧ TruStabilityPressureSensor.countsToTemperatures t ≤ 150
    ∧ StrictMono TruStabilityPressureSensor.countsToTemperatures
    ∧ -50 ≤ ((TruStabilityPressureSensor.new pin a b cfg buf).readSensorSeq frames).temperature.1
    ∧ ((TruStabilityPressureSensor.new pin a b cfg buf).readSensorSeq frames).temperature.1
        ≤ 150 := by
  have hr := readSensorSeq_keeps_ranges frames (TruStabilityPressureSensor.new pin a b cfg buf)
    ⟨le_refl _, show (0 : Int) ≤ 16383 by decide, le_refl _, show (0 : Int) ≤ 2047 by decide⟩
  have hb := countsToTemperatures_bounds _ hr.2.2.1 hr.2.2.2
  exact ⟨countsToTemperatures_linear t, (countsToTemperatures_bounds t h0 h1).1,
    (countsToTemperatures_bounds t h0 h1).2, countsToTemperatures_strictMono, hb.1, hb.2⟩

/-- Witness for `countsToTemperatures_span`: count 819, and a sensor that has read one Normal
frame and one stale frame. -/
theorem countsToTemperatures_span_witness :
    (0 : Int) ≤ 819 ∧ (819 : Int) ≤ 2047
    ∧ TruStabilityPressureSensor.countsToTemperatures 819 = ((819 : Int) : ℚ) / 2047 * 200 - 50
    ∧ -50 ≤ TruStabilityPressureSensor.countsToTemperatures 819
    ∧ TruStabilityPressureSensor.countsToTemperatures 819 ≤ 150
    ∧ StrictMono TruStabilityPressureSensor.countsToTemperatures
    ∧ -50 ≤ ((TruStabilityPressureSensor.new 3 0 30 ⟨800000, 1, 0⟩ ⟨0, 0, 0, 0⟩).readSensorSeq
        [⟨0x19, 0x99, 0x66, 0x60⟩, ⟨0x9F, 0x33, 0x44, 0x55⟩]).temperature.1
    ∧ ((TruStabilityPressureSensor.new 3 0 30 ⟨800000, 1, 0⟩ ⟨0, 0, 0, 0⟩).readSensorSeq
        [⟨0x19, 0x99, 0x66, 0x60⟩, ⟨0x9F, 0x33, 0x44, 0x55⟩]).temperature.1 ≤ 150 :=
  ⟨by decide, by decide,
    countsToTemperatures_span 819 3 0 30 ⟨800000, 1, 0⟩ ⟨0, 0, 0, 0⟩
      [⟨0x19, 0x99, 0x66, 0x60⟩, ⟨0x9F, 0x33, 0x44, 0x55⟩] (by decide) (by decide)⟩

/-! ## Encoded frames -/

section EncodeFacts

set_option maxRecDepth 100000

theorem byte_shl3_mask (b : Byte) : (b.val <<< 3) &&& 0x7F8 = b.val <<< 3 := by
  revert b; decide

end EncodeFacts

theorem encode_pressure_bits (p : Nat) (h : p ≤ 16383) :
    ((((p >>> 8) % 256) &&& 0x3F) <<< 8) ||| ((p &&& 0xFF) % 256) = p := by
  have h1 : ((p >>> 8) % 256) &&& 0x3F = ((p >>> 8) % 256) % 2 ^ 6 :=
    Nat.and_pow_two_sub_one_eq_mod _ 6
  have h2 : p &&& 0xFF = p % 2 ^ 8 := Nat.and_pow_two_sub_one_eq_mod _ 8
  have h3 : (p % 2 ^ 8) % 256 < 2 ^ 8 := by norm_num; omega
  rw [h1, h2, Nat.shiftLeft_eq, Nat.mul_comm, ← Nat.mul_add_lt_is_or h3,
    Nat.shiftRight_eq_div_pow]
  norm_num
  omega

theorem encode_temperature_bits (t : Nat) (h : t ≤ 2047) :
    ((((t >>> 3) % 256) <<< 3) &&& 0x7F8) ||| ((((t &&& 7) <<< 5) % 256) >>> 5) = t := by
  have h1 : t &&& 7 = t % 2 ^ 3 := Nat.and_pow_two_sub_one_eq_mod _ 3
  have hlt : (t >>> 3) % 256 < 256 := Nat.mod_lt _ (by norm_num)
  have hm := byte_shl3_mask ⟨(t >>> 3) % 256, hlt⟩
  have h5 : (((t % 2 ^ 3) <<< 5) % 256) >>> 5 = t % 2 ^ 3 := by
    rw [Nat.shiftLeft_eq, Nat.shiftRight_eq_div_pow]
    norm_num
    omega
  have h8 : t % 2 ^ 3 < 2 ^ 3 := Nat.mod_lt _ (by norm_num)
  rw [show (((t >>> 3) % 256) <<< 3) &&& 0x7F8 = ((t >>> 3) % 256) <<< 3 from hm, h1, h5,
    Nat.shiftLeft_eq, Nat.mul_comm, ← Nat.mul_add_lt_is_or h8, Nat.shiftRight_eq_div_pow]
  norm_num
  omega

theorem encode_bytes_exact (p t : Nat) (hp : p ≤ 16383) (ht : t ≤ 2047) :
    (byteOf (p >>> 8)).val = p >>> 8 ∧ (byteOf (p &&& 0xFF)).val = p &&& 0xFF
    ∧ (byteOf (t >>> 3)).val = t >>> 3 ∧ (byteOf ((t &&& 7) <<< 5)).val = (t &&& 7) <<< 5 := by
  have h1 : p &&& 0xFF = p % 2 ^ 8 := Nat.and_pow_two_sub_one_eq_mod _ 8
  have h2 : t &&& 7 = t % 2 ^ 3 := Nat.and_pow_two_sub_one_eq_mod _ 3
  refine ⟨?_, ?_, ?_, ?_⟩
  · show (p >>> 8) % 256 = p >>> 8
    rw [Nat.shiftRight_eq_div_pow]; norm_num; omega
  · show (p &&& 0xFF) % 256 = p &&& 0xFF
    rw [h1]; norm_num
  · show (t >>> 3) % 256 = t >>> 3
    rw [Nat.shiftRight_eq_div_pow]; norm_num; omega
  · show ((t &&& 7) <<< 5) % 256 = (t &&& 7) <<< 5
    rw [h2, Nat.shiftLeft_eq]; norm_num; omega

/-- C14: for every `p ≤ 16383` and `t ≤ 2047`, the bytes `p >> 8`, `p & 0xFF`, `t >> 3` and
`(t & 7) << 5` fit in a byte, the frame they form has status Normal, and reading it from any
prior state leaves raw pressure `p` and raw temperature `t`. -/
theorem encode_decode_roundtrip (s : TruStabilityPressureSensor) (p t : Nat)
    (hp : p ≤ 16383) (ht : t ≤ 2047) :
    ((byteOf (p >>> 8)).val = p >>> 8 ∧ (byteOf (p &&& 0xFF)).val = p &&& 0xFF
      ∧ (byteOf (t >>> 3)).val = t >>> 3 ∧ (byteOf ((t &&& 7) <<< 5)).val = (t &&& 7) <<< 5)
    ∧ (s.readSensor
        ⟨byteOf (p >>> 8), byteOf (p &&& 0xFF), byteOf (t >>> 3), byteOf ((t &&& 7) <<< 5)⟩).1 = 0
    ∧ (s.readSensor
        ⟨byteOf (p >>> 8), byteOf (p &&& 0xFF), byteOf (t >>> 3),
          byteOf ((t &&& 7) <<< 5)⟩).2.rawPressure.1 = (p : Int)
    ∧ (s.readSensor
        ⟨byteOf (p >>> 8), byteOf (p &&& 0xFF), byteOf (t >>> 3),
          byteOf ((t &&& 7) <<< 5)⟩).2.rawTemperature.1 = (t : Int) := by
  have hn : (⟨byteOf (p >>> 8), byteOf (p &&& 0xFF), byteOf (t >>> 3),
      byteOf ((t &&& 7) <<< 5)⟩ : Frame).b0.val >>> 6 = 0 := by
    show ((p >>> 8) % 256) >>> 6 = 0
    rw [Nat.shiftRight_eq_div_pow, Nat.shiftRight_eq_div_pow]
    norm_num
    omega
  refine ⟨encode_bytes_exact p t hp ht, ?_, ?_, ?_⟩
  · rw [readSensor_fst, readSensor_status]
    exact hn
  · rw [readSensor_normal s _ hn]
    exact congrArg Int.ofNat (encode_pressure_bits p hp)
  · rw [readSensor_normal s _ hn]
    exact congrArg Int.ofNat (encode_temperature_bits t ht)

/-- Witness for `encode_decode_roundtrip`: `p = 6553`, `t = 819`, read by a sensor holding the
counts 1000 and 500. -/
theorem encode_decode_roundtrip_witness :
    6553 ≤ 16383 ∧ 819 ≤ 2047
    ∧ ((byteOf (6553 >>> 8)).val = 6553 >>> 8 ∧ (byteOf (6553 &&& 0xFF)).val = 6553 &&& 0xFF
      ∧ (byteOf (819 >>> 3)).val = 819 >>> 3
      ∧ (byteOf ((819 &&& 7) <<< 5)).val = (819 &&& 7) <<< 5)
    ∧ ((⟨3, 0, 30, ⟨800000, 1, 0⟩, ⟨0, 0, 0, 0⟩, 2, 1000, 500⟩ :
        TruStabilityPressureSensor).readSensor
        ⟨byteOf (6553 >>> 8), byteOf (6553 &&& 0xFF), byteOf (819 >>> 3),
          byteOf ((819 &&& 7) <<< 5)⟩).1 = 0
    ∧ ((⟨3, 0, 30, ⟨800000, 1, 0⟩, ⟨0, 0, 0, 0⟩, 2, 1000, 500⟩ :
        TruStabilityPressureSensor).readSensor
        ⟨byteOf (6553 >>> 8), byteOf (6553 &&& 0xFF), byteOf (819 >>> 3),
          byteOf ((819 &&& 7) <<< 5)⟩).2.rawPressure.1 = ((6553 : Nat) : Int)
    ∧ ((⟨3, 0, 30, ⟨800000, 1, 0⟩, ⟨0, 0, 0, 0⟩, 2, 1000, 500⟩ :
        TruStabilityPressureSensor).readSensor
        ⟨byteOf (6553 >>> 8), byteOf (6553 &&& 0xFF), byteOf (819 >>> 3),
          byteOf ((819 &&& 7) <<< 5)⟩).2.rawTemperature.1 = ((819 : Nat) : Int) :=
  ⟨by decide, by decide,
    encode_decode_roundtrip ⟨3, 0, 30, ⟨800000, 1, 0⟩, ⟨0, 0, 0, 0⟩, 2, 1000, 500⟩ 6553 819
      (by decide) (by decide)⟩

/-! ## Which bits of a frame matter -/

/-- C15: two frames that agree on bytes 0, 1, 2 and on the top three bits of byte 3 give, from
the same prior state, the same returned status and the same stored status and counts; the
pressure count does not depend on bytes 2 and 3, and the temperature count does not depend on
byte 1 nor on the low six bits of byte 0. -/
theorem readSensor_unused_bits (s : TruStabilityPressureSensor) (b0 b1 b2 b3 c3 e0 e1 e2 e3 : Byte)
    (h3 : b3.val >>> 5 = c3.val >>> 5) (h0 : e0.val >>> 6 = b0.val >>> 6) :
    ((s.readSensor ⟨b0, b1, b2, b3⟩).1 = (s.readSensor ⟨b0, b1, b2, c3⟩).1
      ∧ (s.readSensor ⟨b0, b1, b2, b3⟩).2.status.1 = (s.readSensor ⟨b0, b1, b2, c3⟩).2.status.1
      ∧ (s.readSensor ⟨b0, b1, b2, b3⟩).2.rawPressure.1
          = (s.readSensor ⟨b0, b1, b2, c3⟩).2.rawPressure.1
      ∧ (s.readSensor ⟨b0, b1, b2, b3⟩).2.rawTemperature.1
          = (s.readSensor ⟨b0, b1, b2, c3⟩).2.rawTemperature.1)
    ∧ (s.readSensor ⟨b0, b1, b2, b3⟩).2.rawPressure.1
        = (s.readSensor ⟨b0, b1, e2, e3⟩).2.rawPressure.1
    ∧ (s.readSensor ⟨b0, b1, b2, b3⟩).2.rawTemperature.1
        = (s.readSensor ⟨e0, e1, b2, b3⟩).2.rawTemperature.1 := by
  have hst : ∀ rx : Frame, (s.readSensor rx).2.status.1 = rx.b0.val >>> 6 :=
    fun rx => readSensor_status s rx
  refine ⟨⟨?_, ?_, ?_, ?_⟩, ?_, ?_⟩
  · rw [readSensor_fst, readSensor_fst, readSensor_status, readSensor_status]
  · rw [hst, hst]
  · by_cases hn : b0.val >>> 6 = 0
    · rw [readSensor_normal s ⟨b0, b1, b2, b3⟩ hn, readSensor_normal s ⟨b0, b1, b2, c3⟩ hn]
      rfl
    · rw [readSensor_not_normal s ⟨b0, b1, b2, b3⟩ hn,
        readSensor_not_normal s ⟨b0, b1, b2, c3⟩ hn]
      rfl
  · by_cases hn : b0.val >>> 6 = 0
    · rw [readSensor_normal s ⟨b0, b1, b2, b3⟩ hn, readSensor_normal s ⟨b0, b1, b2, c3⟩ hn]
      show ((((b2.val <<< 3) &&& 0x7F8) ||| (b3.val >>> 5) : Nat) : Int)
        = ((((b2.val <<< 3) &&& 0x7F8) ||| (c3.val >>> 5) : Nat) : Int)
      rw [h3]
    · rw [readSensor_not_normal s ⟨b0, b1, b2, b3⟩ hn,
        readSensor_not_normal s ⟨b0, b1, b2, c3⟩ hn]
      rfl
  · by_cases hn : b0.val >>> 6 = 0
    · rw [readSensor_normal s ⟨b0, b1, b2, b3⟩ hn, readSensor_normal s ⟨b0, b1, e2, e3⟩ hn]
      rfl
    · rw [readSensor_not_normal s ⟨b0, b1, b2, b3⟩ hn,
        readSensor_not_normal s ⟨b0, b1, e2, e3⟩ hn]
      rfl
  · by_cases hn : b0.val >>> 6 = 0
    · rw [readSensor_normal s ⟨b0, b1, b2, b3⟩ hn,
        readSensor_normal s ⟨e0, e1, b2, b3⟩ (h0.trans hn)]
      rfl
    · rw [readSensor_not_normal s ⟨b0, b1, b2, b3⟩ hn,
        readSensor_not_normal s ⟨e0, e1, b2, b3⟩ (fun he => hn (h0.symm.trans he))]
      rfl

/-- Witness for `readSensor_unused_bits`: byte 3 is `0xE7` or `0xF8` (top three bits 111), byte 0
is `0x2A` or `0x15` (status bits 00). -/
theorem readSensor_unused_bits_witness :
    ((0xE7 : Byte).val >>> 5 = (0xF8 : Byte).val >>> 5)
    ∧ ((0x15 : Byte).val >>> 6 = (0x2A : Byte).val >>> 6)
    ∧ (((⟨3, 0, 30, ⟨800000, 1, 0⟩, ⟨0, 0, 0, 0⟩, 2, 1000, 500⟩ :
          TruStabilityPressureSensor).readSensor ⟨0x2A, 0x5C, 0x81, 0xE7⟩).1
        = ((⟨3, 0, 30, ⟨800000, 1, 0⟩, ⟨0, 0, 0, 0⟩, 2, 1000, 500⟩ :
          TruStabilityPressureSensor).readSensor ⟨0x2A, 0x5C, 0x81, 0xF8⟩).1
      ∧ ((⟨3, 0, 30, ⟨800000, 1, 0⟩, ⟨0, 0, 0, 0⟩, 2, 1000, 500⟩ :
          TruStabilityPressureSensor).readSensor ⟨0x2A, 0x5C, 0x81, 0xE7⟩).2.status.1
        = ((⟨3, 0, 30, ⟨800000, 1, 0⟩, ⟨0, 0, 0, 0⟩, 2, 1000, 500⟩ :
          TruStabilityPressureSensor).readSensor ⟨0x2A, 0x5C, 0x81, 0xF8⟩).2.status.1
      ∧ ((⟨3, 0, 30, ⟨800000, 1, 0⟩, ⟨0, 0, 0, 0⟩, 2, 1000, 500⟩ :
          TruStabilityPressureSensor).readSensor ⟨0x2A, 0x5C, 0x81, 0xE7⟩).2.rawPressure.1
        = ((⟨3, 0, 30, ⟨800000, 1, 0⟩, ⟨0, 0, 0, 0⟩, 2, 1000, 500⟩ :
          TruStabilityPressureSensor).readSensor ⟨0x2A, 0x5C, 0x81, 0xF8⟩).2.rawPressure.1
      ∧ ((⟨3, 0, 30, ⟨800000, 1, 0⟩, ⟨0, 0, 0, 0⟩, 2, 1000, 500⟩ :
          TruStabilityPressureSensor).readSensor ⟨0x2A, 0x5C, 0x81, 0xE7⟩).2.rawTemperature.1
        = ((⟨3, 0, 30, ⟨800000, 1, 0⟩, ⟨0, 0, 0, 0⟩, 2, 1000, 500⟩ :
          TruStabilityPressureSensor).readSensor ⟨0x2A, 0x5C, 0x81, 0xF8⟩).2.rawTemperature.1)
    ∧ ((⟨3, 0, 30, ⟨800000, 1, 0⟩, ⟨0, 0, 0, 0⟩, 2, 1000, 500⟩ :
          TruStabilityPressureSensor).readSensor ⟨0x2A, 0x5C, 0x81, 0xE7⟩).2.rawPressure.1
        = ((⟨3, 0, 30, ⟨800000, 1, 0⟩, ⟨0, 0, 0, 0⟩, 2, 1000, 500⟩ :
          TruStabilityPressureSensor).readSensor ⟨0x2A, 0x5C, 0x07, 0x12⟩).2.rawPressure.1
    ∧ ((⟨3, 0, 30, ⟨800000, 1, 0⟩, ⟨0, 0, 0, 0⟩, 2, 1000, 500⟩ :
          TruStabilityPressureSensor).readSensor ⟨0x2A, 0x5C, 0x81, 0xE7⟩).2.rawTemperature.1
        = ((⟨3, 0, 30, ⟨800000, 1, 0⟩, ⟨0, 0, 0, 0⟩, 2, 1000, 500⟩ :
          TruStabilityPressureSensor).readSensor ⟨0x15, 0x33, 0x81, 0xE7⟩).2.rawTemperature.1 :=
  ⟨by decide, by decide,
    readSensor_unused_bits ⟨3, 0, 30, ⟨800000, 1, 0⟩, ⟨0, 0, 0, 0⟩, 2, 1000, 500⟩
      0x2A 0x5C 0x81 0xE7 0xF8 0x15 0x33 0x07 0x12 (by decide) (by decide)⟩

/-! ## The fresh sensor -/

/-- C16: a freshly constructed sensor reports `status() = 0` with counts 0 and 0 before any
`readSensor` call, and each of its accessors returns what the same accessor returns after the
sensor has read the Normal frame `[0x00, 0x00, 0x00, 0x00]`. -/
theorem new_status_zero (pin : Byte) (a b : ℚ) (cfg : SPISettings) (buf : Frame) :
    (TruStabilityPressureSensor.new pin a b cfg buf).status.1 = 0
    ∧ (TruStabilityPressureSensor.new pin a b cfg buf).rawPressure.1 = 0
    ∧ (TruStabilityPressureSensor.new pin a b cfg buf).rawTemperature.1 = 0
    ∧ ((TruStabilityPressureSensor.new pin a b cfg buf).readSensor ⟨0x00, 0x00, 0x00, 0x00⟩).1 = 0
    ∧ (TruStabilityPressureSensor.new pin a b cfg buf).status.1
        = ((TruStabilityPressureSensor.new pin a b cfg buf).readSensor
            ⟨0x00, 0x00, 0x00, 0x00⟩).2.status.1
    ∧ (TruStabilityPressureSensor.new pin a b cfg buf).rawPressure.1
        = ((TruStabilityPressureSensor.new pin a b cfg buf).readSensor
            ⟨0x00, 0x00, 0x00, 0x00⟩).2.rawPressure.1
    ∧ (TruStabilityPressureSensor.new pin a b cfg buf).rawTemperature.1
        = ((TruStabilityPressureSensor.new pin a b cfg buf).readSensor
            ⟨0x00, 0x00, 0x00, 0x00⟩).2.rawTemperature.1
    ∧ (TruStabilityPressureSensor.new pin a b cfg buf).pressure.1
        = ((TruStabilityPressureSensor.new pin a b cfg buf).readSensor
            ⟨0x00, 0x00, 0x00, 0x00⟩).2.pressure.1
    ∧ (TruStabilityPressureSensor.new pin a b cfg buf).temperature.1
        = ((TruStabilityPressureSensor.new pin a b cfg buf).readSensor
            ⟨0x00, 0x00, 0x00, 0x00⟩).2.temperature.1 := by
  have hn : (⟨0x00, 0x00, 0x00, 0x00⟩ : Frame).b0.val >>> 6 = 0 := by decide
  rw [readSensor_fst, readSensor_normal _ _ hn]
  exact ⟨rfl, rfl, rfl, rfl, rfl, rfl, rfl, rfl, rfl⟩

/-! ## Rounding to binary32 -/

theorem halfEven_cases (x : ℚ) :
    (halfEven x = ⌊x⌋ ∧ x - ⌊x⌋ ≤ 1 / 2) ∨ (halfEven x = ⌊x⌋ + 1 ∧ 1 / 2 ≤ x - ⌊x⌋) := by
  unfold halfEven
  split_ifs with h1 h2 h3
  · exact Or.inl ⟨rfl, h1.le⟩
  · exact Or.inr ⟨rfl, h2.le⟩
  · exact Or.inl ⟨rfl, not_lt.mp h2⟩
  · exact Or.inr ⟨rfl, not_lt.mp h1⟩

theorem halfEven_err (x : ℚ) : |(halfEven x : ℚ) - x| ≤ 1 / 2 := by
  have h0 := Int.floor_le x
  have h1 := Int.lt_floor_add_one x
  rw [abs_le]
  rcases halfEven_cases x with ⟨h, hf⟩ | ⟨h, hf⟩ <;> rw [h] <;> push_cast <;> constructor <;> linarith

theorem halfEven_eq_of (x : ℚ) (m : Int) (h : |x - m| < 1 / 2) : halfEven x = m := by
  have he := halfEven_err x
  rw [abs_le] at he
  rw [abs_lt] at h
  have h1 : ((halfEven x : Int) : ℚ) - (m : ℚ) < 1 := by linarith
  have h2 : (m : ℚ) - ((halfEven x : Int) : ℚ) < 1 := by linarith
  have h3 : halfEven x - m < 1 := by exact_mod_cast h1
  have h4 : m - halfEven x < 1 := by exact_mod_cast h2
  omega

theorem halfEven_intCast (n : Int) : halfEven (n : ℚ) = n :=
  halfEven_eq_of _ n (by simp)

theorem halfEven_mono {x y : ℚ} (h : x ≤ y) : halfEven x ≤ halfEven y := by
  have hfl : ⌊x⌋ ≤ ⌊y⌋ := Int.floor_le_floor h
  rcases lt_or_eq_of_le hfl with hlt | heq
  · rcases halfEven_cases x with ⟨hx, _⟩ | ⟨hx, _⟩ <;>
      rcases halfEven_cases y with ⟨hy, _⟩ | ⟨hy, _⟩ <;> omega
  · unfold halfEven
    rw [← heq]
    have hxy : x - ⌊x⌋ ≤ y - ⌊x⌋ := by linarith
    split_ifs <;> first | omega | (exfalso; linarith)

theorem halfEven_nonneg {x : ℚ} (h : 0 ≤ x) : 0 ≤ halfEven x := by
  have := halfEven_mono h
  rwa [show ((0 : ℚ)) = ((0 : Int) : ℚ) by simp, halfEven_intCast] at this


/-! ### The exponent -/

theorem f32Exp_ge (x : ℚ) : -126 ≤ f32Exp x := le_max_right _ _

theorem f32Ulp_pos (x : ℚ) : 0 < f32Ulp x := zpow_pos (by norm_num) _

theorem abs_lt_zpow_f32Exp (x : ℚ) : |x| < 2 ^ (f32Exp x + 1) := by
  have h := Int.lt_zpow_succ_log_self (R := ℚ) (b := 2) (by norm_num) |x|
  rw [Nat.cast_ofNat] at h
  refine lt_of_lt_of_le h (zpow_le_zpow_right₀ (by norm_num) ?_)
  have := le_max_left (Int.log 2 |x|) (-126)
  unfold f32Exp
  omega

theorem zpow_f32Exp_le (x : ℚ) (h : (2 : ℚ) ^ (-126 : ℤ) ≤ |x|) : 2 ^ f32Exp x ≤ |x| := by
  have hpos : 0 < |x| := lt_of_lt_of_le (zpow_pos (by norm_num) _) h
  have hl : (-126 : ℤ) ≤ Int.log 2 |x| := by
    rw [← Int.zpow_le_iff_le_log (by norm_num) hpos, Nat.cast_ofNat]
    exact h
  have h2 := Int.zpow_log_le_self (R := ℚ) (b := 2) (by norm_num) hpos
  rw [Nat.cast_ofNat] at h2
  unfold f32Exp
  rwa [max_eq_left hl]

theorem f32Exp_eq_of (x : ℚ) (e : ℤ) (he : -126 ≤ e) (h1 : (2 : ℚ) ^ e ≤ |x|)
    (h2 : |x| < 2 ^ (e + 1)) : f32Exp x = e := by
  have hpos : 0 < |x| := lt_of_lt_of_le (zpow_pos (by norm_num) _) h1
  have hl : e ≤ Int.log 2 |x| := by
    rw [← Int.zpow_le_iff_le_log (by norm_num) hpos, Nat.cast_ofNat]
    exact h1
  have hu : Int.log 2 |x| < e + 1 := by
    rw [← Int.lt_zpow_iff_log_lt (by norm_num) hpos, Nat.cast_ofNat]
    exact h2
  unfold f32Exp
  rw [max_eq_left (by omega)]
  omega

theorem f32Exp_eq_of_small (x : ℚ) (h0 : x ≠ 0) (h : |x| < 2 ^ (-126 : ℤ)) : f32Exp x = -126 := by
  have hpos : 0 < |x| := abs_pos.mpr h0
  have hu : Int.log 2 |x| < -126 := by
    rw [← Int.lt_zpow_iff_log_lt (by norm_num) hpos, Nat.cast_ofNat]
    exact h
  unfold f32Exp
  rw [max_eq_right (by omega)]

theorem f32Exp_mono {x y : ℚ} (hx : 0 < |x|) (h : |x| ≤ |y|) : f32Exp x ≤ f32Exp y := by
  unfold f32Exp
  exact max_le_max (Int.log_mono_right hx h) (le_refl _)

theorem f32Exp_neg (x : ℚ) : f32Exp (-x) = f32Exp x := by
  unfold f32Exp
  rw [abs_neg]

theorem f32Ulp_neg (x : ℚ) : f32Ulp (-x) = f32Ulp x := by
  unfold f32Ulp
  rw [f32Exp_neg]

/-! ### Rounding a magnitude -/

theorem f32Mag_zero : f32Mag 0 = 0 := by
  unfold f32Mag
  rw [zero_div, show ((0 : ℚ)) = ((0 : Int) : ℚ) by simp, halfEven_intCast]
  simp

theorem f32Mag_nonneg {x : ℚ} (h : 0 ≤ x) : 0 ≤ f32Mag x := by
  unfold f32Mag
  have h1 : (0 : ℚ) ≤ x / f32Ulp x := div_nonneg h (f32Ulp_pos x).le
  have h2 : (0 : ℚ) ≤ (halfEven (x / f32Ulp x) : ℚ) := by exact_mod_cast halfEven_nonneg h1
  exact mul_nonneg h2 (f32Ulp_pos x).le

theorem f32Mag_err (x : ℚ) : |f32Mag x - x| ≤ f32Ulp x / 2 := by
  have hu := f32Ulp_pos x
  have he := halfEven_err (x / f32Ulp x)
  have e : f32Mag x - x = ((halfEven (x / f32Ulp x) : ℚ) - x / f32Ulp x) * f32Ulp x := by
    unfold f32Mag
    field_simp
  rw [e, abs_mul, abs_of_pos hu]
  have := mul_le_mul_of_nonneg_right he hu.le
  linarith

theorem f32Mag_le_zpow (x : ℚ) (h : 0 ≤ x) : f32Mag x ≤ 2 ^ (f32Exp x + 1) := by
  have hu := f32Ulp_pos x
  have hlt : x < 2 ^ (f32Exp x + 1) := by
    have := abs_lt_zpow_f32Exp x
    rwa [abs_of_nonneg h] at this
  have e : (2 : ℚ) ^ (f32Exp x + 1) = ((2 ^ 24 : Int) : ℚ) * f32Ulp x := by
    unfold f32Ulp
    push_cast
    rw [show (16777216 : ℚ) = (2 : ℚ) ^ (24 : ℤ) by norm_num, ← zpow_add₀ (by norm_num)]
    congr 1
    ring
  have hq : x / f32Ulp x ≤ ((2 ^ 24 : Int) : ℚ) := by
    rw [div_le_iff₀ hu, ← e]
    exact hlt.le
  have hm := halfEven_mono hq
  rw [halfEven_intCast] at hm
  rw [e]
  unfold f32Mag
  have hm' : ((halfEven (x / f32Ulp x) : Int) : ℚ) ≤ ((2 ^ 24 : Int) : ℚ) := by exact_mod_cast hm
  exact mul_le_mul_of_nonneg_right hm' hu.le

theorem zpow_le_f32Mag (x : ℚ) (h : (2 : ℚ) ^ (-126 : ℤ) ≤ x) : 2 ^ f32Exp x ≤ f32Mag x := by
  have hu := f32Ulp_pos x
  have hx0 : 0 ≤ x := le_trans (zpow_pos (by norm_num) _).le h
  have hle : (2 : ℚ) ^ f32Exp x ≤ x := by
    have := zpow_f32Exp_le x (by rwa [abs_of_nonneg hx0])
    rwa [abs_of_nonneg hx0] at this
  have e : (2 : ℚ) ^ f32Exp x = ((2 ^ 23 : Int) : ℚ) * f32Ulp x := by
    unfold f32Ulp
    push_cast
    rw [show (8388608 : ℚ) = (2 : ℚ) ^ (23 : ℤ) by norm_num, ← zpow_add₀ (by norm_num)]
    congr 1
    ring
  have hq : ((2 ^ 23 : Int) : ℚ) ≤ x / f32Ulp x := by
    rw [le_div_iff₀ hu, ← e]
    exact hle
  have hm := halfEven_mono hq
  rw [halfEven_intCast] at hm
  rw [e]
  unfold f32Mag
  have hm' : ((2 ^ 23 : Int) : ℚ) ≤ ((halfEven (x / f32Ulp x) : Int) : ℚ) := by exact_mod_cast hm
  exact mul_le_mul_of_nonneg_right hm' hu.le

theorem f32Mag_mono {x y : ℚ} (hx : 0 ≤ x) (h : x ≤ y) : f32Mag x ≤ f32Mag y := by
  rcases eq_or_lt_of_le hx with h0 | hpos
  · rw [← h0, f32Mag_zero]
    exact f32Mag_nonneg (le_trans hx h)
  have hy : 0 ≤ y := le_trans hx h
  have hexp : f32Exp x ≤ f32Exp y :=
    f32Exp_mono (by rwa [abs_of_pos hpos]) (by rwa [abs_of_nonneg hx, abs_of_nonneg hy])
  rcases eq_or_lt_of_le hexp with heq | hlt
  · have hu : f32Ulp x = f32Ulp y := by unfold f32Ulp; rw [heq]
    unfold f32Mag
    rw [hu]
    have hq : x / f32Ulp y ≤ y / f32Ulp y := div_le_div_of_nonneg_right h (f32Ulp_pos y).le
    have hm : ((halfEven (x / f32Ulp y) : Int) : ℚ) ≤ ((halfEven (y / f32Ulp y) : Int) : ℚ) := by
      exact_mod_cast halfEven_mono hq
    exact mul_le_mul_of_nonneg_right hm (f32Ulp_pos y).le
  · have h1 := f32Mag_le_zpow x hx
    have h2 : (2 : ℚ) ^ (f32Exp x + 1) ≤ 2 ^ f32Exp y :=
      zpow_le_zpow_right₀ (by norm_num) (by omega)
    have hy126 : (2 : ℚ) ^ (-126 : ℤ) ≤ y := by
      by_contra hc
      push_neg at hc
      have hy0 : y ≠ 0 := ne_of_gt (lt_of_lt_of_le hpos h)
      have := f32Exp_eq_of_small y hy0 (by rwa [abs_of_nonneg hy])
      have := f32Exp_ge x
      omega
    have h3 := zpow_le_f32Mag y hy126
    linarith


/-! ### Rounding to nearest, ties to even -/

theorem roundF32U_zero : roundF32U 0 = 0 := by
  unfold roundF32U
  rw [if_pos (le_refl _), f32Mag_zero]

theorem roundF32U_neg (q : ℚ) : roundF32U (-q) = -roundF32U q := by
  rcases lt_trichotomy q 0 with h | h | h
  · unfold roundF32U
    rw [if_pos (by linarith), if_neg (by linarith), neg_neg]
  · subst h
    rw [neg_zero, roundF32U_zero, neg_zero]
  · unfold roundF32U
    rw [if_neg (by linarith), if_pos (by linarith), neg_neg]

theorem roundF32U_nonneg {q : ℚ} (h : 0 ≤ q) : 0 ≤ roundF32U q := by
  unfold roundF32U
  rw [if_pos h]
  exact f32Mag_nonneg h

theorem roundF32U_nonpos {q : ℚ} (h : q ≤ 0) : roundF32U q ≤ 0 := by
  have := roundF32U_nonneg (q := -q) (by linarith)
  rw [roundF32U_neg] at this
  linarith

theorem roundF32U_mono {x y : ℚ} (h : x ≤ y) : roundF32U x ≤ roundF32U y := by
  rcases le_or_lt 0 x with hx | hx
  · unfold roundF32U
    rw [if_pos hx, if_pos (le_trans hx h)]
    exact f32Mag_mono hx h
  · rcases le_or_lt 0 y with hy | hy
    · exact le_trans (roundF32U_nonpos hx.le) (roundF32U_nonneg hy)
    · unfold roundF32U
      rw [if_neg (by linarith), if_neg (by linarith)]
      have := f32Mag_mono (x := -y) (y := -x) (by linarith) (by linarith)
      linarith

theorem roundF32U_err (q : ℚ) : |roundF32U q - q| ≤ f32Ulp q / 2 := by
  rcases le_or_lt 0 q with h | h
  · unfold roundF32U
    rw [if_pos h]
    exact f32Mag_err q
  · unfold roundF32U
    rw [if_neg (by linarith)]
    have := f32Mag_err (-q)
    rw [f32Ulp_neg] at this
    rw [show -f32Mag (-q) - q = -(f32Mag (-q) - -q) by ring, abs_neg]
    exact this

theorem f32Ulp_le (q : ℚ) (h : (2 : ℚ) ^ (-126 : ℤ) ≤ |q|) : f32Ulp q ≤ |q| * 2 ^ (-23 : ℤ) := by
  have h1 := zpow_f32Exp_le q h
  unfold f32Ulp
  rw [sub_eq_add_neg, zpow_add₀ (by norm_num)]
  exact mul_le_mul_of_nonneg_right h1 (zpow_pos (by norm_num) _).le

theorem roundF32U_rel (q : ℚ) (h : (2 : ℚ) ^ (-126 : ℤ) ≤ |q|) :
    |roundF32U q - q| ≤ |q| * 2 ^ (-24 : ℤ) := by
  have h1 := roundF32U_err q
  have h2 := f32Ulp_le q h
  have e : |q| * (2 : ℚ) ^ (-24 : ℤ) = |q| * 2 ^ (-23 : ℤ) / 2 := by
    rw [show (-24 : ℤ) = -23 + -1 by norm_num, zpow_add₀ (by norm_num)]
    norm_num
    ring
  rw [e]
  exact le_trans h1 (div_le_div_of_nonneg_right h2 (by norm_num))

theorem roundF32U_abs_err (q : ℚ) :
    |roundF32U q - q| ≤ |q| * 2 ^ (-24 : ℤ) + 2 ^ (-150 : ℤ) := by
  have hp : (0 : ℚ) < 2 ^ (-150 : ℤ) := zpow_pos (by norm_num) _
  have hq : (0 : ℚ) ≤ |q| * 2 ^ (-24 : ℤ) := mul_nonneg (abs_nonneg _) (zpow_pos (by norm_num) _).le
  rcases le_or_lt ((2 : ℚ) ^ (-126 : ℤ)) |q| with h | h
  · have := roundF32U_rel q h
    linarith
  · by_cases h0 : q = 0
    · subst h0
      rw [roundF32U_zero, sub_zero, abs_zero, zero_mul, zero_add]
      exact hp.le
    · have h1 := roundF32U_err q
      have he := f32Exp_eq_of_small q h0 h
      have hu : f32Ulp q / 2 = 2 ^ (-150 : ℤ) := by
        unfold f32Ulp
        rw [he]
        norm_num
      rw [hu] at h1
      linarith

/-- Certificate for one rounding of a positive value in the normal range. -/
theorem roundF32U_eq_of (q : ℚ) (e m : ℤ) (he : -126 ≤ e) (h1 : (2 : ℚ) ^ e ≤ q)
    (h2 : q < 2 ^ (e + 1)) (hm : |q / 2 ^ (e - 23) - m| < 1 / 2) :
    roundF32U q = m * 2 ^ (e - 23) := by
  have hq : 0 < q := lt_of_lt_of_le (zpow_pos (by norm_num) _) h1
  have hexp : f32Exp q = e :=
    f32Exp_eq_of q e he (by rwa [abs_of_pos hq]) (by rwa [abs_of_pos hq])
  unfold roundF32U
  rw [if_pos hq.le]
  unfold f32Mag f32Ulp
  rw [hexp, halfEven_eq_of _ m hm]

theorem roundF32U_zpow (k : ℤ) (hk : -126 ≤ k) : roundF32U ((2 : ℚ) ^ k) = 2 ^ k := by
  have hpos : (0 : ℚ) < 2 ^ (k - 23) := zpow_pos (by norm_num) _
  have e : (2 : ℚ) ^ k / 2 ^ (k - 23) = ((2 ^ 23 : ℤ) : ℚ) := by
    rw [div_eq_iff hpos.ne']
    push_cast
    rw [show (8388608 : ℚ) = (2 : ℚ) ^ (23 : ℤ) by norm_num, ← zpow_add₀ (by norm_num)]
    congr 1
    ring
  rw [roundF32U_eq_of ((2 : ℚ) ^ k) k (2 ^ 23) hk (le_refl _)
    (zpow_lt_zpow_right₀ (by norm_num) (by omega)) (by rw [e]; simp)]
  rw [← e]
  field_simp

theorem roundF32U_abs_le (q : ℚ) (k : ℤ) (hk : -126 ≤ k) (h : |q| ≤ 2 ^ k) :
    |roundF32U q| ≤ 2 ^ k := by
  rw [abs_le] at h ⊢
  have h1 := roundF32U_mono h.1
  have h2 := roundF32U_mono h.2
  rw [roundF32U_neg, roundF32U_zpow k hk] at h1
  rw [roundF32U_zpow k hk] at h2
  exact ⟨h1, h2⟩

/-! ### Overflow -/

theorem roundF32_eq_some {q x : ℚ} (h : roundF32 q = some x) :
    x = roundF32U q ∧ |roundF32U q| < 2 ^ 128 := by
  unfold roundF32 at h
  split_ifs at h with hlt
  exact ⟨(Option.some.inj h).symm, hlt⟩

theorem roundF32_of_abs_le (q : ℚ) (k : ℤ) (hk : -126 ≤ k) (hk2 : k ≤ 127) (h : |q| ≤ 2 ^ k) :
    roundF32 q = some (roundF32U q) := by
  unfold roundF32
  have h1 := roundF32U_abs_le q k hk h
  have h2 : (2 : ℚ) ^ k < 2 ^ (128 : ℤ) := zpow_lt_zpow_right₀ (by norm_num) (by omega)
  rw [if_pos]
  have h3 : (2 : ℚ) ^ (128 : ℤ) = 2 ^ 128 := by norm_num
  rw [← h3]
  exact lt_of_le_of_lt h1 h2


theorem roundF32_eq_of_pos (q r : ℚ) (e m : ℤ) (he : -126 ≤ e) (he2 : e ≤ 126)
    (h1 : (2 : ℚ) ^ e ≤ q) (h2 : q < 2 ^ (e + 1))
    (hm1 : (m : ℚ) - 1 / 2 < q / 2 ^ (e - 23)) (hm2 : q / 2 ^ (e - 23) < (m : ℚ) + 1 / 2)
    (hr : r = m * 2 ^ (e - 23)) : roundF32 q = some r := by
  have hq : 0 < q := lt_of_lt_of_le (zpow_pos (by norm_num) _) h1
  rw [roundF32_of_abs_le q (e + 1) (by omega) (by omega) (by rw [abs_of_pos hq]; exact h2.le),
    roundF32U_eq_of q e m he h1 h2 (by rw [abs_lt]; constructor <;> linarith), hr]

theorem roundF32_eq_of_neg (q r : ℚ) (e m : ℤ) (he : -126 ≤ e) (he2 : e ≤ 126)
    (h1 : (2 : ℚ) ^ e ≤ -q) (h2 : -q < 2 ^ (e + 1))
    (hm1 : (m : ℚ) - 1 / 2 < -q / 2 ^ (e - 23)) (hm2 : -q / 2 ^ (e - 23) < (m : ℚ) + 1 / 2)
    (hr : r = -(m * 2 ^ (e - 23))) : roundF32 q = some r := by
  have hq : 0 < -q := lt_of_lt_of_le (zpow_pos (by norm_num) _) h1
  have hU : roundF32U q = r := by
    have := roundF32U_eq_of (-q) e m he h1 h2 (by rw [abs_lt]; constructor <;> linarith)
    rw [roundF32U_neg] at this
    rw [hr, ← this, neg_neg]
  rw [roundF32_of_abs_le q (e + 1) (by omega) (by omega)
    (by rw [abs_of_neg (by linarith)]; exact h2.le), hU]

theorem countsToPressureF32_eq_of (c : Int) (a b fc r1 r2 r3 r4 r5 x : ℚ)
    (h0 : roundF32 (c : ℚ) = some fc) (h1 : roundF32 (fc - MIN_COUNT_F32) = some r1)
    (h2 : roundF32 (b - a) = some r2) (h3 : roundF32 (r1 * r2) = some r3)
    (h4 : roundF32 (MAX_COUNT_F32 - MIN_COUNT_F32) = some r4)
    (h5 : roundF32 (r3 / r4) = some r5) (h6 : roundF32 (r5 + a) = some x) :
    TruStabilityPressureSensor.countsToPressureF32 c a b = some x := by
  unfold TruStabilityPressureSensor.countsToPressureF32
  simp only [h0, h1, h2, h3, h4, h5, h6, Option.bind_eq_bind, Option.some_bind]

theorem countsToPressureF32_some (c : Int) (a b x : ℚ)
    (h : TruStabilityPressureSensor.countsToPressureF32 c a b = some x) :
    ∃ fc r1 r2 r3 r4 r5 : ℚ, roundF32 (c : ℚ) = some fc ∧ roundF32 (fc - MIN_COUNT_F32) = some r1
      ∧ roundF32 (b - a) = some r2 ∧ roundF32 (r1 * r2) = some r3
      ∧ roundF32 (MAX_COUNT_F32 - MIN_COUNT_F32) = some r4
      ∧ roundF32 (r3 / r4) = some r5 ∧ roundF32 (r5 + a) = some x := by
  unfold TruStabilityPressureSensor.countsToPressureF32 at h
  simp only [Option.bind_eq_bind, Option.bind_eq_some] at h
  obtain ⟨fc, h0, r1, h1, r2, h2, r3, h3, r4, h4, r5, h5, h6⟩ := h
  exact ⟨fc, r1, r2, r3, r4, r5, h0, h1, h2, h3, h4, h5, h6⟩

theorem MIN_COUNT_F32_eq : MIN_COUNT_F32 = 13421773 / 8192 := by
  unfold MIN_COUNT_F32 MIN_COUNT
  rw [roundF32U_eq_of _ 10 13421773 (by norm_num) (by norm_num) (by norm_num)
    (by rw [abs_lt]; constructor <;> norm_num)]
  norm_num

theorem MAX_COUNT_F32_eq : MAX_COUNT_F32 = 7549747 / 512 := by
  unfold MAX_COUNT_F32 MAX_COUNT
  rw [roundF32U_eq_of _ 13 15099494 (by norm_num) (by norm_num) (by norm_num)
    (by rw [abs_lt]; constructor <;> norm_num)]
  norm_num

theorem f32_span_eq : roundF32 (MAX_COUNT_F32 - MIN_COUNT_F32) = some (3355443 / 256) := by
  rw [MIN_COUNT_F32_eq, MAX_COUNT_F32_eq]
  exact roundF32_eq_of_pos _ _ 13 13421772 (by norm_num) (by norm_num) (by norm_num)
    (by norm_num) (by norm_num) (by norm_num) (by norm_num)


/-! ## The pressure conversion in binary32 -/

theorem countsToPressureF32_some_U (c : Int) (a b x : ℚ)
    (h : TruStabilityPressureSensor.countsToPressureF32 c a b = some x) :
    x = roundF32U (roundF32U (roundF32U (roundF32U (roundF32U (c : ℚ) - MIN_COUNT_F32)
          * roundF32U (b - a)) / (3355443 / 256)) + a) := by
  obtain ⟨fc, r1, r2, r3, r4, r5, h0, h1, h2, h3, h4, h5, h6⟩ := countsToPressureF32_some c a b x h
  rw [f32_span_eq] at h4
  have e4 : r4 = 3355443 / 256 := (Option.some.inj h4).symm
  rw [(roundF32_eq_some h6).1, (roundF32_eq_some h5).1, (roundF32_eq_some h3).1,
    (roundF32_eq_some h2).1, (roundF32_eq_some h1).1, (roundF32_eq_some h0).1, e4]

theorem f32_offset_mono {c1 c2 : Int} (h : c1 ≤ c2) :
    roundF32U (roundF32U (c1 : ℚ) - MIN_COUNT_F32)
      ≤ roundF32U (roundF32U (c2 : ℚ) - MIN_COUNT_F32) := by
  have hq : (c1 : ℚ) ≤ (c2 : ℚ) := by exact_mod_cast h
  have := roundF32U_mono hq
  exact roundF32U_mono (by linarith)

theorem abs_MIN_COUNT_F32_le : |MIN_COUNT_F32| ≤ 2 ^ (11 : ℤ) := by
  rw [MIN_COUNT_F32_eq, abs_of_pos (by norm_num)]
  norm_num

/-- No overflow for counts of an `int` of at most 32 bits and a range within `±2^60`. -/
theorem countsToPressureF32_finite (c : Int) (a b : ℚ) (hc : |(c : ℚ)| ≤ 2 ^ (31 : ℤ))
    (ha : |a| ≤ 2 ^ (60 : ℤ)) (hb : |b| ≤ 2 ^ (60 : ℤ)) :
    ∃ x, TruStabilityPressureSensor.countsToPressureF32 c a b = some x := by
  have h0 := roundF32_of_abs_le (c : ℚ) 31 (by norm_num) (by norm_num) hc
  have b0 := roundF32U_abs_le (c : ℚ) 31 (by norm_num) hc
  have q1 : |roundF32U (c : ℚ) - MIN_COUNT_F32| ≤ 2 ^ (32 : ℤ) := by
    have := abs_sub (roundF32U (c : ℚ)) MIN_COUNT_F32
    have := abs_MIN_COUNT_F32_le
    norm_num at *
    linarith
  have h1 := roundF32_of_abs_le _ 32 (by norm_num) (by norm_num) q1
  have b1 := roundF32U_abs_le _ 32 (by norm_num) q1
  have q2 : |b - a| ≤ 2 ^ (61 : ℤ) := by
    have := abs_sub b a
    norm_num at *
    linarith
  have h2 := roundF32_of_abs_le _ 61 (by norm_num) (by norm_num) q2
  have b2 := roundF32U_abs_le _ 61 (by norm_num) q2
  have q3 : |roundF32U (roundF32U (c : ℚ) - MIN_COUNT_F32) * roundF32U (b - a)| ≤ 2 ^ (93 : ℤ) := by
    rw [abs_mul, show (93 : ℤ) = 32 + 61 by norm_num, zpow_add₀ (by norm_num)]
    exact mul_le_mul b1 b2 (abs_nonneg _) (zpow_pos (by norm_num) _).le
  have h3 := roundF32_of_abs_le _ 93 (by norm_num) (by norm_num) q3
  have b3 := roundF32U_abs_le _ 93 (by norm_num) q3
  have q5 : |roundF32U (roundF32U (roundF32U (c : ℚ) - MIN_COUNT_F32) * roundF32U (b - a))
      / (3355443 / 256)| ≤ 2 ^ (93 : ℤ) := by
    rw [abs_div, abs_of_pos (show (0 : ℚ) < 3355443 / 256 by norm_num)]
    rw [div_le_iff₀ (by norm_num)]
    have : (2 : ℚ) ^ (93 : ℤ) ≤ 2 ^ (93 : ℤ) * (3355443 / 256) := by
      have hp : (0 : ℚ) < 2 ^ (93 : ℤ) := zpow_pos (by norm_num) _
      nlinarith
    linarith
  have h5 := roundF32_of_abs_le _ 93 (by norm_num) (by norm_num) q5
  have b5 := roundF32U_abs_le _ 93 (by norm_num) q5
  have q6 : |roundF32U (roundF32U (roundF32U (roundF32U (c : ℚ) - MIN_COUNT_F32)
      * roundF32U (b - a)) / (3355443 / 256)) + a| ≤ 2 ^ (94 : ℤ) := by
    have := abs_add (roundF32U (roundF32U (roundF32U (roundF32U (c : ℚ) - MIN_COUNT_F32)
      * roundF32U (b - a)) / (3355443 / 256))) a
    norm_num at *
    linarith
  have h6 := roundF32_of_abs_le _ 94 (by norm_num) (by norm_num) q6
  exact ⟨_, countsToPressureF32_eq_of c a b _ _ _ _ _ _ _ h0 h1 h2 h3 f32_span_eq h5 h6⟩

theorem f32_offset_1638 :
    roundF32U (roundF32U ((1638 : ℤ) : ℚ) - MIN_COUNT_F32) = (-3277 / 8192) := by
  have h0 : roundF32 ((1638 : ℤ) : ℚ) = some 1638 :=
    (by exact roundF32_eq_of_pos _ _ (10) 13418496 (by norm_num) (by norm_num) (by norm_num) (by norm_num) (by norm_num) (by norm_num) (by norm_num))
  rw [← (roundF32_eq_some h0).1]
  have h1 : roundF32 (1638 - MIN_COUNT_F32) = some (-3277 / 8192) :=
    (by rw [MIN_COUNT_F32_eq]; exact roundF32_eq_of_neg _ _ (-2) 13422592 (by norm_num) (by norm_num) (by norm_num) (by norm_num) (by norm_num) (by norm_num) (by norm_num))
  exact ((roundF32_eq_some h1).1).symm

theorem f32_offset_1639 :
    roundF32U (roundF32U ((1639 : ℤ) : ℚ) - MIN_COUNT_F32) = (4915 / 8192) := by
  have h0 : roundF32 ((1639 : ℤ) : ℚ) = some 1639 :=
    (by exact roundF32_eq_of_pos _ _ (10) 13426688 (by norm_num) (by norm_num) (by norm_num) (by norm_num) (by norm_num) (by norm_num) (by norm_num))
  rw [← (roundF32_eq_some h0).1]
  have h1 : roundF32 (1639 - MIN_COUNT_F32) = some (4915 / 8192) :=
    (by rw [MIN_COUNT_F32_eq]; exact roundF32_eq_of_pos _ _ (-1) 10065920 (by norm_num) (by norm_num) (by norm_num) (by norm_num) (by norm_num) (by norm_num) (by norm_num))
  exact ((roundF32_eq_some h1).1).symm

theorem f32_offset_14745 :
    roundF32U (roundF32U ((14745 : ℤ) : ℚ) - MIN_COUNT_F32) = (6710579 / 512) := by
  have h0 : roundF32 ((14745 : ℤ) : ℚ) = some 14745 :=
    (by exact roundF32_eq_of_pos _ _ (13) 15098880 (by norm_num) (by norm_num) (by norm_num) (by norm_num) (by norm_num) (by norm_num) (by norm_num))
  rw [← (roundF32_eq_some h0).1]
  have h1 : roundF32 (14745 - MIN_COUNT_F32) = some (6710579 / 512) :=
    (by rw [MIN_COUNT_F32_eq]; exact roundF32_eq_of_pos _ _ (13) 13421158 (by norm_num) (by norm_num) (by norm_num) (by norm_num) (by norm_num) (by norm_num) (by norm_num))
  exact ((roundF32_eq_some h1).1).symm

theorem f32_offset_14746 :
    roundF32U (roundF32U ((14746 : ℤ) : ℚ) - MIN_COUNT_F32) = (6711091 / 512) := by
  have h0 : roundF32 ((14746 : ℤ) : ℚ) = some 14746 :=
    (by exact roundF32_eq_of_pos _ _ (13) 15099904 (by norm_num) (by norm_num) (by norm_num) (by norm_num) (by norm_num) (by norm_num) (by norm_num))
  rw [← (roundF32_eq_some h0).1]
  have h1 : roundF32 (14746 - MIN_COUNT_F32) = some (6711091 / 512) :=
    (by rw [MIN_COUNT_F32_eq]; exact roundF32_eq_of_pos _ _ (13) 13422182 (by norm_num) (by norm_num) (by norm_num) (by norm_num) (by norm_num) (by norm_num) (by norm_num))
  exact ((roundF32_eq_some h1).1).symm



/-! ### Relative error of the scaled offset -/

theorem roundF32U_rel_pos (q : ℚ) (h : (2 : ℚ) ^ (-126 : ℤ) ≤ q) :
    q * (1 - 1 / 16777216) ≤ roundF32U q ∧ roundF32U q ≤ q * (1 + 1 / 16777216) := by
  have hq : 0 < q := lt_of_lt_of_le (zpow_pos (by norm_num) _) h
  have := roundF32U_rel q (by rwa [abs_of_pos hq])
  rw [abs_of_pos hq, abs_le] at this
  norm_num at this ⊢
  constructor <;> linarith

/-- Bounds on `((k * (max - min)) / span)` as the code rounds it, for an offset `k ≥ 2/5`. -/
theorem f32_scaled_bounds (k d : ℚ) (hk : 2 / 5 ≤ k) (hd : (2 : ℚ) ^ (-100 : ℤ) ≤ d) :
    k * d / (3355443 / 256) * (1 - 1 / 16777216) ^ 3
        ≤ roundF32U (roundF32U (k * roundF32U d) / (3355443 / 256))
    ∧ roundF32U (roundF32U (k * roundF32U d) / (3355443 / 256))
        ≤ k * d / (3355443 / 256) * (1 + 1 / 16777216) ^ 3 := by
  have hk0 : 0 < k := by linarith
  have h100 : (2 : ℚ) ^ (-100 : ℤ) = 1 / 2 ^ 100 := by norm_num
  have h126 : (2 : ℚ) ^ (-126 : ℤ) = 1 / 2 ^ 126 := by norm_num
  have hd0 : 0 < d := lt_of_lt_of_le (zpow_pos (by norm_num) _) hd
  rw [h100] at hd
  -- first rounding
  have n2 : (2 : ℚ) ^ (-126 : ℤ) ≤ d := by rw [h126]; refine le_trans ?_ hd; norm_num
  obtain ⟨l2, u2⟩ := roundF32U_rel_pos d n2
  have p2 : 0 < roundF32U d := lt_of_lt_of_le (by nlinarith) l2
  -- second rounding
  have lo3 : k * (d * (1 - 1 / 16777216)) ≤ k * roundF32U d := mul_le_mul_of_nonneg_left l2 hk0.le
  have hi3 : k * roundF32U d ≤ k * (d * (1 + 1 / 16777216)) := mul_le_mul_of_nonneg_left u2 hk0.le
  have n3 : (2 : ℚ) ^ (-126 : ℤ) ≤ k * roundF32U d := by
    rw [h126]
    have : (2 / 5 : ℚ) * ((1 / 2 ^ 100) * (1 - 1 / 16777216)) ≤ k * (d * (1 - 1 / 16777216)) :=
      mul_le_mul hk (mul_le_mul_of_nonneg_right hd (by norm_num)) (by norm_num) hk0.le
    refine le_trans ?_ (le_trans this lo3)
    norm_num
  obtain ⟨l3, u3⟩ := roundF32U_rel_pos _ n3
  have lo3' : k * (d * (1 - 1 / 16777216)) * (1 - 1 / 16777216) ≤ roundF32U (k * roundF32U d) :=
    le_trans (mul_le_mul_of_nonneg_right lo3 (by norm_num)) l3
  have hi3' : roundF32U (k * roundF32U d) ≤ k * (d * (1 + 1 / 16777216)) * (1 + 1 / 16777216) :=
    le_trans u3 (mul_le_mul_of_nonneg_right hi3 (by norm_num))
  -- third rounding
  have lo5 := div_le_div_of_nonneg_right lo3' (show (0 : ℚ) ≤ 3355443 / 256 by norm_num)
  have hi5 := div_le_div_of_nonneg_right hi3' (show (0 : ℚ) ≤ 3355443 / 256 by norm_num)
  have n5 : (2 : ℚ) ^ (-126 : ℤ) ≤ roundF32U (k * roundF32U d) / (3355443 / 256) := by
    rw [h126]
    have t1 : (2 / 5 : ℚ) * ((1 / 2 ^ 100) * (1 - 1 / 16777216)) ≤ k * (d * (1 - 1 / 16777216)) :=
      mul_le_mul hk (mul_le_mul_of_nonneg_right hd (by norm_num)) (by norm_num) hk0.le
    have t2 := div_le_div_of_nonneg_right
      (mul_le_mul_of_nonneg_right t1 (show (0 : ℚ) ≤ 1 - 1 / 16777216 by norm_num))
      (show (0 : ℚ) ≤ 3355443 / 256 by norm_num)
    refine le_trans ?_ (le_trans t2 lo5)
    norm_num
  obtain ⟨l5, u5⟩ := roundF32U_rel_pos _ n5
  constructor
  · refine le_trans ?_ (le_trans (mul_le_mul_of_nonneg_right lo5 (by norm_num)) l5)
    apply le_of_eq
    ring
  · refine le_trans (le_trans u5 (mul_le_mul_of_nonneg_right hi5 (by norm_num))) ?_
    apply le_of_eq
    ring

theorem f32_scaled_neg (k r2 : ℚ) :
    roundF32U (roundF32U (-k * r2) / (3355443 / 256))
      = -roundF32U (roundF32U (k * r2) / (3355443 / 256)) := by
  rw [neg_mul, roundF32U_neg, neg_div, roundF32U_neg]

theorem f32_scaled_mono {r1 r1' r2 : ℚ} (h : r1 ≤ r1') (h2 : 0 ≤ r2) :
    roundF32U (roundF32U (r1 * r2) / (3355443 / 256))
      ≤ roundF32U (roundF32U (r1' * r2) / (3355443 / 256)) :=
  roundF32U_mono (div_le_div_of_nonneg_right
    (roundF32U_mono (mul_le_mul_of_nonneg_right h h2)) (by norm_num))

/-- Position of the scaled offset relative to `0` and to the span `d = max - min`, by count. -/
theorem f32_scaled_position (c : Int) (d : ℚ) (hd : (2 : ℚ) ^ (-100 : ℤ) ≤ d) :
    (c ≤ 1638 → roundF32U (roundF32U (roundF32U (roundF32U (c : ℚ) - MIN_COUNT_F32)
        * roundF32U d) / (3355443 / 256)) ≤ -(3 / 100000 * d))
    ∧ (1639 ≤ c → 4 / 100000 * d ≤ roundF32U (roundF32U (roundF32U (roundF32U (c : ℚ)
        - MIN_COUNT_F32) * roundF32U d) / (3355443 / 256)))
    ∧ (c ≤ 14745 → roundF32U (roundF32U (roundF32U (roundF32U (c : ℚ) - MIN_COUNT_F32)
        * roundF32U d) / (3355443 / 256)) ≤ d - 4 / 100000 * d)
    ∧ (14746 ≤ c → d + 3 / 100000 * d ≤ roundF32U (roundF32U (roundF32U (roundF32U (c : ℚ)
        - MIN_COUNT_F32) * roundF32U d) / (3355443 / 256))) := by
  have hd0 : 0 < d := lt_of_lt_of_le (zpow_pos (by norm_num) _) hd
  have h2 : 0 ≤ roundF32U d := roundF32U_nonneg hd0.le
  refine ⟨?_, ?_, ?_, ?_⟩
  · intro hc
    have hm := f32_scaled_mono (f32_offset_mono hc) h2
    rw [f32_offset_1638, show (-3277 / 8192 : ℚ) = -(3277 / 8192) by norm_num,
      f32_scaled_neg] at hm
    have hb := (f32_scaled_bounds (3277 / 8192) d (by norm_num) hd).1
    have e : (3277 / 8192 : ℚ) * d / (3355443 / 256) * (1 - 1 / 16777216) ^ 3
        = d * ((3277 / 8192 : ℚ) / (3355443 / 256) * (1 - 1 / 16777216) ^ 3) := by ring
    have hn : (3 / 100000 : ℚ) ≤ (3277 / 8192 : ℚ) / (3355443 / 256) * (1 - 1 / 16777216) ^ 3 := by
      norm_num
    have := mul_le_mul_of_nonneg_left hn hd0.le
    linarith
  · intro hc
    have hm := f32_scaled_mono (f32_offset_mono hc) h2
    rw [f32_offset_1639] at hm
    have hb := (f32_scaled_bounds (4915 / 8192) d (by norm_num) hd).1
    have e : (4915 / 8192 : ℚ) * d / (3355443 / 256) * (1 - 1 / 16777216) ^ 3
        = d * ((4915 / 8192 : ℚ) / (3355443 / 256) * (1 - 1 / 16777216) ^ 3) := by ring
    have hn : (4 / 100000 : ℚ) ≤ (4915 / 8192 : ℚ) / (3355443 / 256) * (1 - 1 / 16777216) ^ 3 := by
      norm_num
    have := mul_le_mul_of_nonneg_left hn hd0.le
    linarith
  · intro hc
    have hm := f32_scaled_mono (f32_offset_mono hc) h2
    rw [f32_offset_14745] at hm
    have hb := (f32_scaled_bounds (6710579 / 512) d (by norm_num) hd).2
    have e : (6710579 / 512 : ℚ) * d / (3355443 / 256) * (1 + 1 / 16777216) ^ 3
        = d * ((6710579 / 512 : ℚ) / (3355443 / 256) * (1 + 1 / 16777216) ^ 3) := by ring
    have hn : (6710579 / 512 : ℚ) / (3355443 / 256) * (1 + 1 / 16777216) ^ 3
        ≤ 1 - 4 / 100000 := by
      norm_num
    have := mul_le_mul_of_nonneg_left hn hd0.le
    linarith
  · intro hc
    have hm := f32_scaled_mono (f32_offset_mono hc) h2
    rw [f32_offset_14746] at hm
    have hb := (f32_scaled_bounds (6711091 / 512) d (by norm_num) hd).1
    have e : (6711091 / 512 : ℚ) * d / (3355443 / 256) * (1 - 1 / 16777216) ^ 3
        = d * ((6711091 / 512 : ℚ) / (3355443 / 256) * (1 - 1 / 16777216) ^ 3) := by ring
    have hn : (1 + 3 / 100000 : ℚ)
        ≤ (6711091 / 512 : ℚ) / (3355443 / 256) * (1 - 1 / 16777216) ^ 3 := by
      norm_num
    have := mul_le_mul_of_nonneg_left hn hd0.le
    linarith


/-! ### The last addition -/

theorem roundF32U_abs_err_num (q : ℚ) :
    roundF32U q ≤ q + (|q| / 16777216 + 2 ^ (-150 : ℤ))
    ∧ q - (|q| / 16777216 + 2 ^ (-150 : ℤ)) ≤ roundF32U q := by
  have h := roundF32U_abs_err q
  rw [show (2 : ℚ) ^ (-24 : ℤ) = 1 / 16777216 by norm_num, abs_le] at h
  constructor <;> linarith [h.1, h.2]

theorem roundF32U_lt_of (y t g : ℚ) (hy : y ≤ t - g)
    (hg : (|t| + g) / 16777216 + 2 ^ (-150 : ℤ) < g) (hg0 : 0 ≤ g) : roundF32U y < t := by
  have h1 := roundF32U_mono hy
  have h2 := (roundF32U_abs_err_num (t - g)).1
  have h3 : |t - g| ≤ |t| + g := by
    have := abs_sub t g
    rwa [abs_of_nonneg hg0] at this
  generalize (2 : ℚ) ^ (-150 : ℤ) = η at *
  linarith

theorem roundF32U_gt_of (y t g : ℚ) (hy : t + g ≤ y)
    (hg : (|t| + g) / 16777216 + 2 ^ (-150 : ℤ) < g) (hg0 : 0 ≤ g) : t < roundF32U y := by
  have h1 := roundF32U_mono hy
  have h2 := (roundF32U_abs_err_num (t + g)).2
  have h3 : |t + g| ≤ |t| + g := by
    have := abs_add t g
    rwa [abs_of_nonneg hg0] at this
  generalize (2 : ℚ) ^ (-150 : ℤ) = η at *
  linarith

/-- Strict position of the binary32 result when `|min|` and `|max|` are at most 256 spans. -/
theorem countsToPressureF32_strict (a b x : ℚ) (c : Int)
    (hd : (2 : ℚ) ^ (-100 : ℤ) ≤ b - a) (hA : |a| ≤ 256 * (b - a)) (hB : |b| ≤ 256 * (b - a))
    (hx : TruStabilityPressureSensor.countsToPressureF32 c a b = some x) :
    (c ≤ 1638 → x < a) ∧ (1639 ≤ c → a < x) ∧ (c ≤ 14745 → x < b) ∧ (14746 ≤ c → b < x) := by
  have hd0 : 0 < b - a := lt_of_lt_of_le (zpow_pos (by norm_num) _) hd
  have hη : (2 : ℚ) ^ (-150 : ℤ) ≤ (b - a) / 2 ^ 50 := by
    have : (2 : ℚ) ^ (-150 : ℤ) = 2 ^ (-100 : ℤ) / 2 ^ 50 := by norm_num
    rw [this]
    exact div_le_div_of_nonneg_right hd (by norm_num)
  have hη' : (b - a) / 2 ^ 50 ≤ (b - a) / 1000000000 := by
    apply div_le_div_of_nonneg_left hd0.le (by norm_num) (by norm_num)
  have key : ∀ t g : ℚ, |t| ≤ 256 * (b - a) → 3 / 100000 * (b - a) ≤ g →
      (|t| + g) / 16777216 + 2 ^ (-150 : ℤ) < g := by
    intro t g ht hg
    have h1 := hη
    generalize (2 : ℚ) ^ (-150 : ℤ) = η at h1 ⊢
    linarith
  obtain ⟨p1, p2, p3, p4⟩ := f32_scaled_position c (b - a) hd
  rw [countsToPressureF32_some_U c a b x hx]
  refine ⟨fun hc => ?_, fun hc => ?_, fun hc => ?_, fun hc => ?_⟩
  · exact roundF32U_lt_of _ a (3 / 100000 * (b - a)) (by linarith [p1 hc])
      (key a _ hA (le_refl _)) (by linarith)
  · exact roundF32U_gt_of _ a (4 / 100000 * (b - a)) (by linarith [p2 hc])
      (key a _ hA (by linarith)) (by linarith)
  · exact roundF32U_lt_of _ b (4 / 100000 * (b - a)) (by linarith [p3 hc])
      (key b _ hB (by linarith)) (by linarith)
  · exact roundF32U_gt_of _ b (3 / 100000 * (b - a)) (by linarith [p4 hc])
      (key b _ hB (le_refl _)) (by linarith)

/-! ### Negating the range -/

theorem roundF32_neg {q r : ℚ} (h : roundF32 q = some r) : roundF32 (-q) = some (-r) := by
  obtain ⟨h1, h2⟩ := roundF32_eq_some h
  unfold roundF32
  rw [roundF32U_neg, abs_neg, if_pos h2, h1]

theorem IsF32.neg {a : ℚ} (h : IsF32 a) : IsF32 (-a) := roundF32_neg h

theorem countsToPressureF32_neg {c : Int} {a b x : ℚ}
    (h : TruStabilityPressureSensor.countsToPressureF32 c a b = some x) : TruStabilityPressureSensor.countsToPressureF32 c (-a) (-b) = some (-x) := by
  obtain ⟨fc, r1, r2, r3, r4, r5, h0, h1, h2, h3, h4, h5, h6⟩ := countsToPressureF32_some c a b x h
  refine countsToPressureF32_eq_of c (-a) (-b) fc r1 (-r2) (-r3) r4 (-r5) (-x) h0 h1 ?_ ?_ h4 ?_ ?_
  · rw [show -b - -a = -(b - a) by ring]; exact roundF32_neg h2
  · rw [show r1 * -r2 = -(r1 * r2) by ring]; exact roundF32_neg h3
  · rw [show -r3 / r4 = -(r3 / r4) by ring]; exact roundF32_neg h5
  · rw [show -r5 + -a = -(r5 + a) by ring]; exact roundF32_neg h6


/-! ### Distance to the exact-rational formula -/

theorem f32_eta_small : (2 : ℚ) ^ (-150 : ℤ) ≤ 1 / 1000000000 := by norm_num

theorem f32_offset_err (c : Int) (h0 : 0 ≤ c) (h1 : c ≤ 16383) :
    |roundF32U (roundF32U (c : ℚ) - MIN_COUNT_F32) - ((c : ℚ) - 8192 / 5)| ≤ 11 / 5000 := by
  have hq0 : (0 : ℚ) ≤ (c : ℚ) := by exact_mod_cast h0
  have hq1 : (c : ℚ) ≤ 16383 := by exact_mod_cast h1
  obtain ⟨a1, a2⟩ := roundF32U_abs_err_num (c : ℚ)
  obtain ⟨b1, b2⟩ := roundF32U_abs_err_num (roundF32U (c : ℚ) - MIN_COUNT_F32)
  have hη := f32_eta_small
  rw [MIN_COUNT_F32_eq] at b1 b2 ⊢
  rw [abs_of_nonneg hq0] at a1 a2
  have hfc0 : 0 ≤ roundF32U (c : ℚ) := roundF32U_nonneg hq0
  have habs : |roundF32U (c : ℚ) - 13421773 / 8192| ≤ 18024 := by
    rw [abs_le]
    generalize (2 : ℚ) ^ (-150 : ℤ) = η at *
    constructor <;> linarith
  rw [abs_le]
  generalize (2 : ℚ) ^ (-150 : ℤ) = η at *
  constructor <;> linarith

theorem abs_mul_le_of {x y X Y : ℚ} (hx : |x| ≤ X) (hy : |y| ≤ Y) : |x * y| ≤ X * Y := by
  rw [abs_mul]
  exact mul_le_mul hx hy (abs_nonneg _) (le_trans (abs_nonneg _) hx)

/-- Arithmetic of the accumulated rounding errors. -/
theorem f32_approx_arith (a d c' r1 r2 r3 r5 x η : ℚ) (hη0 : 0 ≤ η)
    (hc' : |c'| ≤ 14745) (h1 : |r1 - c'| ≤ 11 / 5000)
    (h2 : |r2 - d| ≤ |d| / 16777216 + η)
    (h3 : |r3 - r1 * r2| ≤ |r1 * r2| / 16777216 + η)
    (h5 : |r5 - r3 / (3355443 / 256)| ≤ |r3 / (3355443 / 256)| / 16777216 + η)
    (h6 : |x - (r5 + a)| ≤ |r5 + a| / 16777216 + η) :
    |x - (a + c' / (65536 / 5) * d)| ≤ (|a| + |d|) * (6 / 10000000) + 6 * η := by
  have hD := abs_nonneg d
  have hA := abs_nonneg a
  have hr1 : |r1| ≤ 14746 := by
    have := abs_sub_abs_le_abs_sub r1 c'
    linarith
  have hr2 : |r2| ≤ |d| + (|d| / 16777216 + η) := by
    have := abs_sub_abs_le_abs_sub r2 d
    linarith
  have hP : |r1 * r2| ≤ 14746 * (|d| + (|d| / 16777216 + η)) := abs_mul_le_of hr1 hr2
  have hT1 : |r1 * r2 - c' * d| ≤ 14746 * (|d| / 16777216 + η) + 11 / 5000 * |d| := by
    have e : r1 * r2 - c' * d = r1 * (r2 - d) + (r1 - c') * d := by ring
    rw [e]
    have t1 := abs_mul_le_of hr1 h2
    have t2 := abs_mul_le_of h1 (le_refl |d|)
    have := abs_add (r1 * (r2 - d)) ((r1 - c') * d)
    linarith
  have hcd : |c' * d| ≤ 14745 * |d| := abs_mul_le_of hc' (le_refl |d|)
  have hr3 : |r3| ≤ |r1 * r2| + (|r1 * r2| / 16777216 + η) := by
    have := abs_sub_abs_le_abs_sub r3 (r1 * r2)
    linarith
  have hQ : |r3 / (3355443 / 256)| = |r3| / (3355443 / 256) := by
    rw [abs_div, abs_of_pos (show (0 : ℚ) < 3355443 / 256 by norm_num)]
  have hr5 : |r5| ≤ |r3 / (3355443 / 256)| + (|r3 / (3355443 / 256)| / 16777216 + η) := by
    have := abs_sub_abs_le_abs_sub r5 (r3 / (3355443 / 256))
    linarith
  have hr5a : |r5 + a| ≤ |r5| + |a| := abs_add r5 a
  rw [hQ] at h5 hr5
  rw [show c' / (65536 / 5) * d = c' * d / (65536 / 5) by ring]
  rw [abs_le] at h3 h5 h6 hT1 hcd ⊢
  generalize |r1 * r2| = P at *
  generalize |r3| = R3 at *
  generalize |r5| = R5 at *
  generalize |r5 + a| = R6 at *
  generalize |d| = D at *
  generalize |a| = A at *
  generalize r1 * r2 = p at *
  generalize c' * d = q at *
  constructor <;> linarith


theorem roundF32U_abs_err_div (q : ℚ) :
    |roundF32U q - q| ≤ |q| / 16777216 + 2 ^ (-150 : ℤ) := by
  have h := roundF32U_abs_err q
  rwa [show (2 : ℚ) ^ (-24 : ℤ) = 1 / 16777216 by norm_num, mul_one_div] at h

/-- The binary32 result stays close to the exact-rational value of the source expression. -/
theorem countsToPressureF32_approx (c : Int) (a b x : ℚ) (h0 : 0 ≤ c) (h1 : c ≤ 16383)
    (hx : TruStabilityPressureSensor.countsToPressureF32 c a b = some x) :
    |x - TruStabilityPressureSensor.countsToPressure c a b| ≤ (|a| + |b|) / 2 ^ 19 + 2 ^ (-147 : ℤ) := by
  have hq0 : (0 : ℚ) ≤ (c : ℚ) := by exact_mod_cast h0
  have hq1 : (c : ℚ) ≤ 16383 := by exact_mod_cast h1
  have hc' : |(c : ℚ) - 8192 / 5| ≤ 14745 := by
    rw [abs_le]; constructor <;> linarith
  have key := f32_approx_arith a (b - a) ((c : ℚ) - 8192 / 5)
    (roundF32U (roundF32U (c : ℚ) - MIN_COUNT_F32)) (roundF32U (b - a))
    (roundF32U (roundF32U (roundF32U (c : ℚ) - MIN_COUNT_F32) * roundF32U (b - a)))
    (roundF32U (roundF32U (roundF32U (roundF32U (c : ℚ) - MIN_COUNT_F32) * roundF32U (b - a))
      / (3355443 / 256)))
    x (2 ^ (-150 : ℤ)) (zpow_pos (by norm_num) _).le hc' (f32_offset_err c h0 h1)
    (roundF32U_abs_err_div _) (roundF32U_abs_err_div _) (roundF32U_abs_err_div _)
    (by rw [countsToPressureF32_some_U c a b x hx]; exact roundF32U_abs_err_div _)
  have e : TruStabilityPressureSensor.countsToPressure c a b = a + ((c : ℚ) - 8192 / 5) / (65536 / 5) * (b - a) := by
    rw [countsToPressure_linear]
    norm_num
  rw [e]
  have hd : |b - a| ≤ |a| + |b| := by
    have := abs_sub b a
    linarith
  have hA := abs_nonneg a
  have hB := abs_nonneg b
  have h147 : (2 : ℚ) ^ (-147 : ℤ) = 8 * 2 ^ (-150 : ℤ) := by norm_num
  have hη : (0 : ℚ) < 2 ^ (-150 : ℤ) := zpow_pos (by norm_num) _
  rw [h147]
  generalize (2 : ℚ) ^ (-150 : ℤ) = η at *
  norm_num at key ⊢
  linarith

/-! ## Evaluations of the binary32 conversion -/

theorem f32_eval_1638_pa :
    TruStabilityPressureSensor.countsToPressureF32 1638 101325 101425 = some 101325 :=
  countsToPressureF32_eq_of 1638 101325 101425 1638 (-3277 / 8192) 100 (-81925 / 2048) (3355443 / 256) (-13108001 / 4294967296) 101325
    (by exact roundF32_eq_of_pos _ _ (10) 13418496 (by norm_num) (by norm_num) (by norm_num) (by norm_num) (by norm_num) (by norm_num) (by norm_num))
    (by rw [MIN_COUNT_F32_eq]; exact roundF32_eq_of_neg _ _ (-2) 13422592 (by norm_num) (by norm_num) (by norm_num) (by norm_num) (by norm_num) (by norm_num) (by norm_num))
    (by exact roundF32_eq_of_pos _ _ (6) 13107200 (by norm_num) (by norm_num) (by norm_num) (by norm_num) (by norm_num) (by norm_num) (by norm_num))
    (by exact roundF32_eq_of_neg _ _ (5) 10486400 (by norm_num) (by norm_num) (by norm_num) (by norm_num) (by norm_num) (by norm_num) (by norm_num))
    f32_span_eq
    (by exact roundF32_eq_of_neg _ _ (-9) 13108001 (by norm_num) (by norm_num) (by norm_num) (by norm_num) (by norm_num) (by norm_num) (by norm_num))
    (by exact roundF32_eq_of_pos _ _ (16) 12969600 (by norm_num) (by norm_num) (by norm_num) (by norm_num) (by norm_num) (by norm_num) (by norm_num))

theorem f32_eval_14746_pa :
    TruStabilityPressureSensor.countsToPressureF32 14746 101325 101425 = some 101425 :=
  countsToPressureF32_eq_of 14746 101325 101425 14746 (6711091 / 512) 100 1310760 (3355443 / 256) (13107601 / 131072) 101425
    (by exact roundF32_eq_of_pos _ _ (13) 15099904 (by norm_num) (by norm_num) (by norm_num) (by norm_num) (by norm_num) (by norm_num) (by norm_num))
    (by rw [MIN_COUNT_F32_eq]; exact roundF32_eq_of_pos _ _ (13) 13422182 (by norm_num) (by norm_num) (by norm_num) (by norm_num) (by norm_num) (by norm_num) (by norm_num))
    (by exact roundF32_eq_of_pos _ _ (6) 13107200 (by norm_num) (by norm_num) (by norm_num) (by norm_num) (by norm_num) (by norm_num) (by norm_num))
    (by exact roundF32_eq_of_pos _ _ (20) 10486080 (by norm_num) (by norm_num) (by norm_num) (by norm_num) (by norm_num) (by norm_num) (by norm_num))
    f32_span_eq
    (by exact roundF32_eq_of_pos _ _ (6) 13107601 (by norm_num) (by norm_num) (by norm_num) (by norm_num) (by norm_num) (by norm_num) (by norm_num))
    (by exact roundF32_eq_of_pos _ _ (16) 12982400 (by norm_num) (by norm_num) (by norm_num) (by norm_num) (by norm_num) (by norm_num) (by norm_num))

theorem f32_eval_8192_sym :
    TruStabilityPressureSensor.countsToPressureF32 8192 (-15) 15 = some (1 / 1048576) :=
  countsToPressureF32_eq_of 8192 (-15) 15 8192 (13421773 / 2048) 30 196608 (3355443 / 256) (15728641 / 1048576) (1 / 1048576)
    (by exact roundF32_eq_of_pos _ _ (13) 8388608 (by norm_num) (by norm_num) (by norm_num) (by norm_num) (by norm_num) (by norm_num) (by norm_num))
    (by rw [MIN_COUNT_F32_eq]; exact roundF32_eq_of_pos _ _ (12) 13421773 (by norm_num) (by norm_num) (by norm_num) (by norm_num) (by norm_num) (by norm_num) (by norm_num))
    (by exact roundF32_eq_of_pos _ _ (4) 15728640 (by norm_num) (by norm_num) (by norm_num) (by norm_num) (by norm_num) (by norm_num) (by norm_num))
    (by exact roundF32_eq_of_pos _ _ (17) 12582912 (by norm_num) (by norm_num) (by norm_num) (by norm_num) (by norm_num) (by norm_num) (by norm_num))
    f32_span_eq
    (by exact roundF32_eq_of_pos _ _ (3) 15728641 (by norm_num) (by norm_num) (by norm_num) (by norm_num) (by norm_num) (by norm_num) (by norm_num))
    (by exact roundF32_eq_of_pos _ _ (-20) 8388608 (by norm_num) (by norm_num) (by norm_num) (by norm_num) (by norm_num) (by norm_num) (by norm_num))

theorem f32_eval_8192_psi :
    TruStabilityPressureSensor.countsToPressureF32 8192 0 30 = some (15728641 / 1048576) :=
  countsToPressureF32_eq_of 8192 0 30 8192 (13421773 / 2048) 30 196608 (3355443 / 256) (15728641 / 1048576) (15728641 / 1048576)
    (by exact roundF32_eq_of_pos _ _ (13) 8388608 (by norm_num) (by norm_num) (by norm_num) (by norm_num) (by norm_num) (by norm_num) (by norm_num))
    (by rw [MIN_COUNT_F32_eq]; exact roundF32_eq_of_pos _ _ (12) 13421773 (by norm_num) (by norm_num) (by norm_num) (by norm_num) (by norm_num) (by norm_num) (by norm_num))
    (by exact roundF32_eq_of_pos _ _ (4) 15728640 (by norm_num) (by norm_num) (by norm_num) (by norm_num) (by norm_num) (by norm_num) (by norm_num))
    (by exact roundF32_eq_of_pos _ _ (17) 12582912 (by norm_num) (by norm_num) (by norm_num) (by norm_num) (by norm_num) (by norm_num) (by norm_num))
    f32_span_eq
    (by exact roundF32_eq_of_pos _ _ (3) 15728641 (by norm_num) (by norm_num) (by norm_num) (by norm_num) (by norm_num) (by norm_num) (by norm_num))
    (by exact roundF32_eq_of_pos _ _ (3) 15728641 (by norm_num) (by norm_num) (by norm_num) (by norm_num) (by norm_num) (by norm_num) (by norm_num))

theorem f32_eval_1638_psi :
    TruStabilityPressureSensor.countsToPressureF32 1638 0 30 = some (-15729601 / 17179869184) :=
  countsToPressureF32_eq_of 1638 0 30 1638 (-3277 / 8192) 30 (-49155 / 4096) (3355443 / 256) (-15729601 / 17179869184) (-15729601 / 17179869184)
    (by exact roundF32_eq_of_pos _ _ (10) 13418496 (by norm_num) (by norm_num) (by norm_num) (by norm_num) (by norm_num) (by norm_num) (by norm_num))
    (by rw [MIN_COUNT_F32_eq]; exact roundF32_eq_of_neg _ _ (-2) 13422592 (by norm_num) (by norm_num) (by norm_num) (by norm_num) (by norm_num) (by norm_num) (by norm_num))
    (by exact roundF32_eq_of_pos _ _ (4) 15728640 (by norm_num) (by norm_num) (by norm_num) (by norm_num) (by norm_num) (by norm_num) (by norm_num))
    (by exact roundF32_eq_of_neg _ _ (3) 12583680 (by norm_num) (by norm_num) (by norm_num) (by norm_num) (by norm_num) (by norm_num) (by norm_num))
    f32_span_eq
    (by exact roundF32_eq_of_neg _ _ (-11) 15729601 (by norm_num) (by norm_num) (by norm_num) (by norm_num) (by norm_num) (by norm_num) (by norm_num))
    (by exact roundF32_eq_of_neg _ _ (-11) 15729601 (by norm_num) (by norm_num) (by norm_num) (by norm_num) (by norm_num) (by norm_num) (by norm_num))

theorem f32_eval_14745_psi :
    TruStabilityPressureSensor.countsToPressureF32 14745 0 30 = some (15727921 / 524288) :=
  countsToPressureF32_eq_of 14745 0 30 14745 (6710579 / 512) 30 393198 (3355443 / 256) (15727921 / 524288) (15727921 / 524288)
    (by exact roundF32_eq_of_pos _ _ (13) 15098880 (by norm_num) (by norm_num) (by norm_num) (by norm_num) (by norm_num) (by norm_num) (by norm_num))
    (by rw [MIN_COUNT_F32_eq]; exact roundF32_eq_of_pos _ _ (13) 13421158 (by norm_num) (by norm_num) (by norm_num) (by norm_num) (by norm_num) (by norm_num) (by norm_num))
    (by exact roundF32_eq_of_pos _ _ (4) 15728640 (by norm_num) (by norm_num) (by norm_num) (by norm_num) (by norm_num) (by norm_num) (by norm_num))
    (by exact roundF32_eq_of_pos _ _ (18) 12582336 (by norm_num) (by norm_num) (by norm_num) (by norm_num) (by norm_num) (by norm_num) (by norm_num))
    f32_span_eq
    (by exact roundF32_eq_of_pos _ _ (4) 15727921 (by norm_num) (by norm_num) (by norm_num) (by norm_num) (by norm_num) (by norm_num) (by norm_num))
    (by exact roundF32_eq_of_pos _ _ (4) 15727921 (by norm_num) (by norm_num) (by norm_num) (by norm_num) (by norm_num) (by norm_num) (by norm_num))

theorem floatToInt_MIN_COUNT_F32 : floatToInt MIN_COUNT_F32 = 1638 := by
  rw [MIN_COUNT_F32_eq]
  unfold floatToInt
  rw [if_pos (by norm_num), Int.floor_eq_iff]
  constructor <;> norm_num

theorem floatToInt_MAX_COUNT_F32 : floatToInt MAX_COUNT_F32 = 14745 := by
  rw [MAX_COUNT_F32_eq]
  unfold floatToInt
  rw [if_pos (by norm_num), Int.floor_eq_iff]
  constructor <;> norm_num

theorem int_ne_MIN_COUNT_F32 (c : Int) : (c : ℚ) ≠ MIN_COUNT_F32 := by
  rw [MIN_COUNT_F32_eq]
  intro h
  have h5 : ((8192 * c : Int) : ℚ) = ((13421773 : Int) : ℚ) := by
    push_cast; rw [h]; norm_num
  have h5i : 8192 * c = 13421773 := by exact_mod_cast h5
  omega

theorem int_ne_MAX_COUNT_F32 (c : Int) : (c : ℚ) ≠ MAX_COUNT_F32 := by
  rw [MAX_COUNT_F32_eq]
  intro h
  have h5 : ((512 * c : Int) : ℚ) = ((7549747 : Int) : ℚ) := by
    push_cast; rw [h]; norm_num
  have h5i : 512 * c = 7549747 := by exact_mod_cast h5
  omega

theorem countsToPressure_14746 (a b : ℚ) :
    TruStabilityPressureSensor.countsToPressure 14746 a b = b + 0.4 * (b - a) / 13107.2 := by
  unfold TruStabilityPressureSensor.countsToPressure MIN_COUNT MAX_COUNT
  norm_num
  ring

theorem countsToPressure_8192 (a b : ℚ) :
    TruStabilityPressureSensor.countsToPressure 8192 a b = (a + b) / 2 := by
  unfold TruStabilityPressureSensor.countsToPressure MIN_COUNT MAX_COUNT
  norm_num
  ring

theorem abs_int_le_of_decodable (c : Int) (h0 : 0 ≤ c) (h1 : c ≤ 16383) :
    |(c : ℚ)| ≤ 2 ^ (31 : ℤ) := by
  have hq0 : (0 : ℚ) ≤ (c : ℚ) := by exact_mod_cast h0
  have hq1 : (c : ℚ) ≤ 16383 := by exact_mod_cast h1
  rw [abs_of_nonneg hq0]
  norm_num
  linarith

/-- C5 as stated fails: passed for `const int counts`, `MIN_COUNT` becomes 1638 and `MAX_COUNT`
becomes 14745, and with range (0, 30) `countsToPressure` returns neither 0 nor 30 there, in
exact rational arithmetic and in binary32 alike. -/
theorem countsToPressure_calibration_points_not_exact :
    floatToInt MIN_COUNT = 1638
    ∧ floatToInt MAX_COUNT = 14745
    ∧ TruStabilityPressureSensor.countsToPressure (floatToInt MIN_COUNT) 0 30 ≠ 0
    ∧ TruStabilityPressureSensor.countsToPressure (floatToInt MAX_COUNT) 0 30 ≠ 30
    ∧ TruStabilityPressureSensor.countsToPressureF32 (floatToInt MIN_COUNT_F32) 0 30
        = some (-15729601 / 17179869184)
    ∧ TruStabilityPressureSensor.countsToPressureF32 (floatToInt MAX_COUNT_F32) 0 30
        = some (15727921 / 524288)
    ∧ (-15729601 / 17179869184 : ℚ) ≠ 0 ∧ (15727921 / 524288 : ℚ) ≠ 30 := by
  refine ⟨floatToInt_MIN_COUNT, floatToInt_MAX_COUNT, ?_, ?_, ?_, ?_, by norm_num, by norm_num⟩
  · rw [floatToInt_MIN_COUNT, countsToPressure_1638]; norm_num
  · rw [floatToInt_MAX_COUNT, countsToPressure_14745]; norm_num
  · rw [floatToInt_MIN_COUNT_F32]; exact f32_eval_1638_psi
  · rw [floatToInt_MAX_COUNT_F32]; exact f32_eval_14745_psi

/-- C5 (amended): no `int` count equals the value of `MIN_COUNT` or of `MAX_COUNT`, which convert
to 1638 and 14745 when passed for `counts`; for every range within `±2^60` the binary32 results
at these counts are finite and lie within `|b - a| / 2^14 + (|a| + |b|) / 2^19 + 2^-147` of
`a` and of `b`. -/
theorem countsToPressureF32_calibration_points (a b : ℚ) (c : Int)
    (hA : |a| ≤ 2 ^ (60 : ℤ)) (hB : |b| ≤ 2 ^ (60 : ℤ)) :
    (c : ℚ) ≠ MIN_COUNT_F32 ∧ (c : ℚ) ≠ MAX_COUNT_F32
    ∧ floatToInt MIN_COUNT_F32 = 1638 ∧ floatToInt MAX_COUNT_F32 = 14745
    ∧ ∃ x y : ℚ,
      TruStabilityPressureSensor.countsToPressureF32 (floatToInt MIN_COUNT_F32) a b = some x
      ∧ TruStabilityPressureSensor.countsToPressureF32 (floatToInt MAX_COUNT_F32) a b = some y
      ∧ |x - a| ≤ |b - a| / 2 ^ 14 + (|a| + |b|) / 2 ^ 19 + 2 ^ (-147 : ℤ)
      ∧ |y - b| ≤ |b - a| / 2 ^ 14 + (|a| + |b|) / 2 ^ 19 + 2 ^ (-147 : ℤ) := by
  refine ⟨int_ne_MIN_COUNT_F32 c, int_ne_MAX_COUNT_F32 c, floatToInt_MIN_COUNT_F32,
    floatToInt_MAX_COUNT_F32, ?_⟩
  rw [floatToInt_MIN_COUNT_F32, floatToInt_MAX_COUNT_F32]
  obtain ⟨x, hx⟩ := countsToPressureF32_finite 1638 a b
    (abs_int_le_of_decodable 1638 (by norm_num) (by norm_num)) hA hB
  obtain ⟨y, hy⟩ := countsToPressureF32_finite 14745 a b
    (abs_int_le_of_decodable 14745 (by norm_num) (by norm_num)) hA hB
  have ex := countsToPressureF32_approx 1638 a b x (by norm_num) (by norm_num) hx
  have ey := countsToPressureF32_approx 14745 a b y (by norm_num) (by norm_num) hy
  rw [countsToPressure_1638] at ex
  rw [countsToPressure_14745] at ey
  have hd := abs_nonneg (b - a)
  have hd1 := le_abs_self (b - a)
  have hd2 := neg_abs_le (b - a)
  refine ⟨x, y, hx, hy, ?_, ?_⟩
  · rw [abs_le] at ex ⊢
    generalize (2 : ℚ) ^ (-147 : ℤ) = η at *
    generalize |b - a| = D at *
    norm_num at ex ⊢
    constructor <;> linarith
  · rw [abs_le] at ey ⊢
    generalize (2 : ℚ) ^ (-147 : ℤ) = η at *
    generalize |b - a| = D at *
    norm_num at ey ⊢
    constructor <;> linarith

/-- Witness for `countsToPressureF32_calibration_points`: range (0, 30), count 1638. -/
theorem countsToPressureF32_calibration_points_witness :
    |(0 : ℚ)| ≤ 2 ^ (60 : ℤ) ∧ |(30 : ℚ)| ≤ 2 ^ (60 : ℤ)
    ∧ (((1638 : Int) : ℚ) ≠ MIN_COUNT_F32 ∧ ((1638 : Int) : ℚ) ≠ MAX_COUNT_F32
    ∧ floatToInt MIN_COUNT_F32 = 1638 ∧ floatToInt MAX_COUNT_F32 = 14745
    ∧ ∃ x y : ℚ,
      TruStabilityPressureSensor.countsToPressureF32 (floatToInt MIN_COUNT_F32) 0 30 = some x
      ∧ TruStabilityPressureSensor.countsToPressureF32 (floatToInt MAX_COUNT_F32) 0 30 = some y
      ∧ |x - 0| ≤ |(30 : ℚ) - 0| / 2 ^ 14 + (|(0 : ℚ)| + |(30 : ℚ)|) / 2 ^ 19 + 2 ^ (-147 : ℤ)
      ∧ |y - 30| ≤ |(30 : ℚ) - 0| / 2 ^ 14 + (|(0 : ℚ)| + |(30 : ℚ)|) / 2 ^ 19
          + 2 ^ (-147 : ℤ)) :=
  ⟨by norm_num, by norm_num,
    countsToPressureF32_calibration_points 0 30 1638 (by norm_num) (by norm_num)⟩

/-- C18 as stated fails on the binary32 code: the mid-scale count 8192 returns `2^-20`, not 0,
for the range (-15, 15), and `15 + 2^-20`, not 15, for the range (0, 30). -/
theorem countsToPressureF32_midscale_counterexample :
    TruStabilityPressureSensor.countsToPressureF32 8192 (-15) 15 = some (1 / 1048576)
    ∧ (1 / 1048576 : ℚ) ≠ (-15 + 15) / 2
    ∧ TruStabilityPressureSensor.countsToPressureF32 8192 0 30 = some (15728641 / 1048576)
    ∧ (15728641 / 1048576 : ℚ) ≠ (0 + 30) / 2 :=
  ⟨f32_eval_8192_sym, by norm_num, f32_eval_8192_psi, by norm_num⟩

/-- C18 (amended): for every range within `±2^60` and every decodable count `0 ≤ c ≤ 16383`
the binary32 results are finite; `countsToPressure(8192, a, b)` lies within
`(|a| + |b|) / 2^19 + 2^-147` of `(a + b) / 2`, and `countsToPressure(c, a, b)` within the
same distance of `a + ((c - 1638.4) / 13107.2) * (b - a)`. -/
theorem countsToPressureF32_midscale (a b : ℚ) (c : Int) (hc0 : 0 ≤ c) (hc1 : c ≤ 16383)
    (hA : |a| ≤ 2 ^ (60 : ℤ)) (hB : |b| ≤ 2 ^ (60 : ℤ)) :
    ∃ x xm : ℚ, TruStabilityPressureSensor.countsToPressureF32 c a b = some x
      ∧ TruStabilityPressureSensor.countsToPressureF32 8192 a b = some xm
      ∧ |xm - (a + b) / 2| ≤ (|a| + |b|) / 2 ^ 19 + 2 ^ (-147 : ℤ)
      ∧ |x - (a + (((c : ℚ) - 1638.4) / 13107.2) * (b - a))|
          ≤ (|a| + |b|) / 2 ^ 19 + 2 ^ (-147 : ℤ) := by
  obtain ⟨x, hx⟩ := countsToPressureF32_finite c a b (abs_int_le_of_decodable c hc0 hc1) hA hB
  obtain ⟨xm, hm⟩ := countsToPressureF32_finite 8192 a b
    (abs_int_le_of_decodable 8192 (by norm_num) (by norm_num)) hA hB
  have ex := countsToPressureF32_approx c a b x hc0 hc1 hx
  have em := countsToPressureF32_approx 8192 a b xm (by norm_num) (by norm_num) hm
  rw [countsToPressure_linear] at ex
  rw [countsToPressure_8192] at em
  exact ⟨x, xm, hx, hm, em, ex⟩

/-- Witness for `countsToPressureF32_midscale`: range (0, 30) at count 6553. -/
theorem countsToPressureF32_midscale_witness :
    (0 : Int) ≤ 6553 ∧ (6553 : Int) ≤ 16383
    ∧ |(0 : ℚ)| ≤ 2 ^ (60 : ℤ) ∧ |(30 : ℚ)| ≤ 2 ^ (60 : ℤ)
    ∧ ∃ x xm : ℚ, TruStabilityPressureSensor.countsToPressureF32 6553 0 30 = some x
      ∧ TruStabilityPressureSensor.countsToPressureF32 8192 0 30 = some xm
      ∧ |xm - ((0 : ℚ) + 30) / 2| ≤ (|(0 : ℚ)| + |(30 : ℚ)|) / 2 ^ 19 + 2 ^ (-147 : ℤ)
      ∧ |x - ((0 : ℚ) + ((((6553 : Int) : ℚ) - 1638.4) / 13107.2) * (30 - 0))|
          ≤ (|(0 : ℚ)| + |(30 : ℚ)|) / 2 ^ 19 + 2 ^ (-147 : ℤ) :=
  ⟨by decide, by decide, by norm_num, by norm_num,
    countsToPressureF32_midscale 0 30 6553 (by decide) (by decide) (by norm_num)
      (by norm_num)⟩

/-- C19 as stated fails on the binary32 code: with range (101325, 101425), `min ≠ max`, the
integer count 1638 returns exactly `min` and the integer count 14746 exactly `max`. -/
theorem countsToPressureF32_endpoint_counterexample :
    (101325 : ℚ) ≠ 101425
    ∧ TruStabilityPressureSensor.countsToPressureF32 1638 101325 101425 = some 101325
    ∧ TruStabilityPressureSensor.countsToPressureF32 14746 101325 101425 = some 101425 :=
  ⟨by norm_num, f32_eval_1638_pa, f32_eval_14746_pa⟩

theorem countsToPressureF32_ne_of_lt (a b : ℚ) (c : Int)
    (hd : (2 : ℚ) ^ (-100 : ℤ) ≤ b - a) (hA : |a| ≤ 256 * (b - a)) (hB : |b| ≤ 256 * (b - a))
    (hA60 : |a| ≤ 2 ^ (60 : ℤ)) (hB60 : |b| ≤ 2 ^ (60 : ℤ)) (hc : |(c : ℚ)| ≤ 2 ^ (31 : ℤ)) :
    ∃ x : ℚ, TruStabilityPressureSensor.countsToPressureF32 c a b = some x ∧ x ≠ a ∧ x ≠ b := by
  obtain ⟨x, hx⟩ := countsToPressureF32_finite c a b hc hA60 hB60
  obtain ⟨p1, p2, p3, p4⟩ := countsToPressureF32_strict a b x c hd hA hB hx
  refine ⟨x, hx, ?_, ?_⟩
  · rcases le_or_lt c 1638 with h | h
    · exact ne_of_lt (p1 h)
    · exact ne_of_gt (p2 (by omega))
  · rcases le_or_lt c 14745 with h | h
    · exact ne_of_lt (p3 h)
    · exact ne_of_gt (p4 (by omega))

/-- C19 (amended): for a range within `±2^60` whose ends differ by at least `2^-100` and are in
magnitude at most 256 times their distance, and for every count of an `int` of at most 32
bits, the binary32 result is finite and is neither `min` nor `max`; the results at the counts
1638 and 14746 lie within `(|min| + |max|) / 2^19 + 2^-147` of
`min - 0.4 * (max - min) / 13107.2` and `max + 0.4 * (max - min) / 13107.2`. -/
theorem countsToPressureF32_never_endpoint (a b : ℚ) (c : Int)
    (hd : (2 : ℚ) ^ (-100 : ℤ) ≤ |b - a|) (hA : |a| ≤ 256 * |b - a|) (hB : |b| ≤ 256 * |b - a|)
    (hA60 : |a| ≤ 2 ^ (60 : ℤ)) (hB60 : |b| ≤ 2 ^ (60 : ℤ)) (hc : |(c : ℚ)| ≤ 2 ^ (31 : ℤ)) :
    ∃ x x1 x2 : ℚ, TruStabilityPressureSensor.countsToPressureF32 c a b = some x
      ∧ x ≠ a ∧ x ≠ b
      ∧ TruStabilityPressureSensor.countsToPressureF32 1638 a b = some x1
      ∧ |x1 - (a - 0.4 * (b - a) / 13107.2)| ≤ (|a| + |b|) / 2 ^ 19 + 2 ^ (-147 : ℤ)
      ∧ TruStabilityPressureSensor.countsToPressureF32 14746 a b = some x2
      ∧ |x2 - (b + 0.4 * (b - a) / 13107.2)| ≤ (|a| + |b|) / 2 ^ 19 + 2 ^ (-147 : ℤ) := by
  obtain ⟨x1, hx1⟩ := countsToPressureF32_finite 1638 a b
    (abs_int_le_of_decodable 1638 (by norm_num) (by norm_num)) hA60 hB60
  obtain ⟨x2, hx2⟩ := countsToPressureF32_finite 14746 a b
    (abs_int_le_of_decodable 14746 (by norm_num) (by norm_num)) hA60 hB60
  have e1 := countsToPressureF32_approx 1638 a b x1 (by norm_num) (by norm_num) hx1
  have e2 := countsToPressureF32_approx 14746 a b x2 (by norm_num) (by norm_num) hx2
  rw [countsToPressure_1638] at e1
  rw [countsToPressure_14746] at e2
  have hpos : 0 < |b - a| := lt_of_lt_of_le (zpow_pos (by norm_num) _) hd
  rcases lt_or_gt_of_ne (sub_ne_zero.mp (abs_pos.mp hpos)) with hlt | hgt
  · -- inverted range: negate it
    have habs : |b - a| = -b - -a := by rw [abs_of_neg (by linarith)]; ring
    rw [habs] at hd hA hB
    obtain ⟨y, hy, hya, hyb⟩ := countsToPressureF32_ne_of_lt (-a) (-b) c hd
      (by rwa [abs_neg]) (by rwa [abs_neg]) (by rwa [abs_neg]) (by rwa [abs_neg]) hc
    have hx := countsToPressureF32_neg hy
    rw [neg_neg, neg_neg] at hx
    refine ⟨-y, x1, x2, hx, ?_, ?_, hx1, e1, hx2, e2⟩
    · intro h; exact hya (by rw [← h, neg_neg])
    · intro h; exact hyb (by rw [← h, neg_neg])
  · have habs : |b - a| = b - a := abs_of_pos (by linarith)
    rw [habs] at hd hA hB
    obtain ⟨x, hx, hxa, hxb⟩ := countsToPressureF32_ne_of_lt a b c hd hA hB hA60 hB60 hc
    exact ⟨x, x1, x2, hx, hxa, hxb, hx1, e1, hx2, e2⟩

/-- Witness for `countsToPressureF32_never_endpoint`: range (0, 30) at count 8192. -/
theorem countsToPressureF32_never_endpoint_witness :
    (2 : ℚ) ^ (-100 : ℤ) ≤ |(30 : ℚ) - 0| ∧ |(0 : ℚ)| ≤ 256 * |(30 : ℚ) - 0|
    ∧ |(30 : ℚ)| ≤ 256 * |(30 : ℚ) - 0|
    ∧ |(0 : ℚ)| ≤ 2 ^ (60 : ℤ) ∧ |(30 : ℚ)| ≤ 2 ^ (60 : ℤ)
    ∧ |((8192 : Int) : ℚ)| ≤ 2 ^ (31 : ℤ)
    ∧ ∃ x x1 x2 : ℚ, TruStabilityPressureSensor.countsToPressureF32 8192 0 30 = some x
      ∧ x ≠ 0 ∧ x ≠ 30
      ∧ TruStabilityPressureSensor.countsToPressureF32 1638 0 30 = some x1
      ∧ |x1 - ((0 : ℚ) - 0.4 * (30 - 0) / 13107.2)|
          ≤ (|(0 : ℚ)| + |(30 : ℚ)|) / 2 ^ 19 + 2 ^ (-147 : ℤ)
      ∧ TruStabilityPressureSensor.countsToPressureF32 14746 0 30 = some x2
      ∧ |x2 - ((30 : ℚ) + 0.4 * (30 - 0) / 13107.2)|
          ≤ (|(0 : ℚ)| + |(30 : ℚ)|) / 2 ^ 19 + 2 ^ (-147 : ℤ) :=
  ⟨by norm_num, by norm_num, by norm_num, by norm_num, by norm_num, by norm_num,
    countsToPressureF32_never_endpoint 0 30 8192 (by norm_num) (by norm_num) (by norm_num)
      (by norm_num) (by norm_num) (by norm_num)⟩
